import Mathlib

/-
Verification development for the a11y-reviewer multi-format accessibility
rule-evaluation engine.

The development shallowly embeds the JavaScript sources:
  * `src/core/html-analyzer.js` (the markup evaluator `analyzeHTML`),
  * `src/core/hybrid-analyzer.js` (the dispatcher `analyzeFileHybrid` and the
    ESLint adapter `analyzeFileWithESLint`),
  * the MCP server handlers `handleCheckAccessibility` and
    `handleCheckAccessibilityBatch`.

Strings are modelled as lists of characters (all inputs considered are ASCII,
so JavaScript UTF-16 lengths coincide with character counts).  JavaScript
regular-expression tests used by the sources are translated into executable
character-list scanners with the same matching semantics, documented at each
definition.  Third-party components (the htmlparser2 parse, the ESLint engine,
and the css/js analyzers that are not part of the analyzed sources) enter as
explicit function parameters.
-/

/-! ## JavaScript-style string utilities -/

/-- Whitespace class of JavaScript regular expressions (ASCII part):
space, tab, newline, carriage return, vertical tab, form feed. -/
def isJsWS (c : Char) : Bool :=
  c = ' ' || c = '\t' || c = '\n' || c = '\r' || c = '\x0b' || c = '\x0c'

/-- Character class of the regex `.` without the `s` flag (ASCII part):
everything except line terminators. -/
def isDotChar (c : Char) : Bool := !(c = '\n' || c = '\r')

/-- Word character class `\w` of JavaScript regular expressions. -/
def isWordChar (c : Char) : Bool :=
  ('a' ≤ c && c ≤ 'z') || ('A' ≤ c && c ≤ 'Z') || ('0' ≤ c && c ≤ '9') || c = '_'

/-- ASCII lower-casing, as performed by `toLowerCase` and by the `i` regex
flag on ASCII input. -/
def lcChar (c : Char) : Char :=
  if 65 ≤ c.toNat ∧ c.toNat ≤ 90 then Char.ofNat (c.toNat + 32) else c

/-- The single-quote character (written via its code point). -/
def squote : Char := Char.ofNat 39

/-- Quote class `["']` used by several of the source regexes. -/
def isQuote (c : Char) : Bool := c = '"' || c = squote

/-- Case-sensitive prefix test on character lists. -/
def startsWithCS : List Char → List Char → Bool
  | [], _ => true
  | _ :: _, [] => false
  | p :: ps, c :: cs => p = c && startsWithCS ps cs

/-- Case-insensitive (ASCII) prefix test; the pattern is given lower case. -/
def startsWithCI : List Char → List Char → Bool
  | [], _ => true
  | _ :: _, [] => false
  | p :: ps, c :: cs => p = lcChar c && startsWithCI ps cs

/-- First index `≥ i` (the running counter) at which `pat` occurs, `-1` when
absent — the semantics of JavaScript `indexOf` restricted to non-empty
patterns. -/
def scanIdxCS (pat : List Char) : List Char → Nat → Int
  | [], _ => -1
  | c :: cs, i => if startsWithCS pat (c :: cs) then (i : Int) else scanIdxCS pat cs (i + 1)

/-- JavaScript `hay.indexOf(pat, start)` for a non-empty `pat` and
`start ≥ 0`. -/
def jsIndexOfFrom (hay pat : List Char) (start : Nat) : Int :=
  scanIdxCS pat (hay.drop start) start

/-- JavaScript `hay.indexOf(pat)`. -/
def jsIndexOf (hay pat : List Char) : Int := jsIndexOfFrom hay pat 0

/-- Does some suffix of the list satisfy `f`?  This realizes the search of an
unanchored regex `test` for patterns that consume at least one character. -/
def existsTail (f : List Char → Bool) : List Char → Bool
  | [] => f []
  | c :: cs => f (c :: cs) || existsTail f cs

/-- First suffix (left to right) on which `f` produces a value, paired with
its starting index. -/
def firstTailSome {α : Type} (f : List Char → Option α) : List Char → Nat → Option (Nat × α)
  | [], i => (f []).map (fun a => (i, a))
  | c :: cs, i =>
    match f (c :: cs) with
    | some a => some (i, a)
    | none => firstTailSome f cs (i + 1)

/-- JavaScript `content.split('\n')`: the list of lines, where a trailing
newline yields a final empty line and the empty string yields `[[]]`. -/
def splitLines : List Char → List (List Char)
  | [] => [[]]
  | c :: cs =>
    let r := splitLines cs
    if c = '\n' then [] :: r
    else
      match r with
      | [] => [[c]]
      | l :: ls => (c :: l) :: ls

/-- Length of `lines.join('\n')`: the summed line lengths plus one separator
between adjacent lines. -/
def joinedLen : List (List Char) → Nat
  | [] => 0
  | [l] => l.length
  | l :: ls => l.length + 1 + joinedLen ls

/-- The helper `getLineNumber` of `html-analyzer.js`: walk the lines keeping a
running character index (line length plus one for the newline) and return the
1-based number of the first line whose accumulated end reaches `index`;
when the loop finishes, return the number of lines. -/
def getLineNumberAux (index : Int) : List (List Char) → Nat → Nat → Int
  | [], _, i => (i : Int)
  | l :: ls, cur, i =>
    let cur2 := cur + l.length + 1
    if (cur2 : Int) ≥ index then (i : Int) + 1 else getLineNumberAux index ls cur2 (i + 1)

def getLineNumber (lines : List (List Char)) (index : Int) : Int :=
  getLineNumberAux index lines 0 0

/-- JavaScript `String.prototype.trim` on ASCII input. -/
def jsTrim (l : List Char) : List Char :=
  ((l.dropWhile (fun c => isJsWS c)).reverse.dropWhile (fun c => isJsWS c)).reverse

/-- Lower-case an ASCII character list (JavaScript `toLowerCase`). -/
def lcList (l : List Char) : List Char := l.map lcChar

/-- Case-sensitive containment, JavaScript `includes`. -/
def containsCS (hay pat : List Char) : Bool := existsTail (startsWithCS pat) hay

/-- JavaScript `parseInt` with radix 10 or an explicit `0x` prefix: skip
leading whitespace, read an optional sign and then leading digits; `none`
models `NaN`. -/
def digitsVal (base : Nat) : List Char → Option Nat → Option Nat
  | [], acc => acc
  | c :: cs, acc =>
    let d : Option Nat :=
      if '0' ≤ c ∧ c ≤ '9' then some (c.toNat - 48)
      else if base = 16 ∧ 'a' ≤ lcChar c ∧ lcChar c ≤ 'f' then some ((lcChar c).toNat - 87)
      else none
    match d with
    | some dv => if dv < base then digitsVal base cs (some ((acc.getD 0) * base + dv)) else acc
    | none => acc

def jsParseInt (s : String) : Option Int :=
  let l := s.data.dropWhile (fun c => isJsWS c)
  let (sign, l) : Int × List Char :=
    match l with
    | '-' :: r => (-1, r)
    | '+' :: r => (1, r)
    | r => (1, r)
  let (base, l) : Nat × List Char :=
    match l with
    | '0' :: x :: r => if lcChar x = 'x' then (16, r) else (10, '0' :: x :: r)
    | r => (10, r)
  (digitsVal base l none).map (fun n => sign * (n : Int))

/-- Keep the first occurrence of every element — the enumeration of a
JavaScript `Set` built by insertion. -/
def jsSetDedupAux : List String → List String → List String
  | [], _ => []
  | x :: r, seen => if x ∈ seen then jsSetDedupAux r seen else x :: jsSetDedupAux r (x :: seen)

def jsSetDedup (l : List String) : List String := jsSetDedupAux l []

/-! ## The DOM tree produced by htmlparser2

The markup evaluator consumes the tree built by the third-party htmlparser2
`DomHandler` (options `lowerCaseTags: true`, `lowerCaseAttributeNames: false`).
The parse itself is external code; trees enter the embedding as values, and
the dispatcher receives the parser as an oracle parameter.  A parse error
surfaces through the `Except` parameter and makes the handler body contribute
no violations, exactly as the `DomHandler` error callback returns early. -/

inductive DNode where
  | tag (name : String) (attribs : List (String × String)) (children : List DNode)
  | text (data : String)

/-- Attribute lookup (`node.attribs[k]`); `none` models `undefined`. -/
def getAttr (attrs : List (String × String)) (k : String) : Option String :=
  (attrs.find? (fun p => p.1 = k)).map (fun p => p.2)

/-- JavaScript truthiness of an attribute value: present and non-empty
(an empty string is falsy). -/
def truthyAttr (attrs : List (String × String)) (k : String) : Bool :=
  match getAttr attrs k with
  | some v => v ≠ ""
  | none => false

/-- Presence of an attribute (`attrs.k !== undefined`), regardless of its
value. -/
def hasAttr (attrs : List (String × String)) (k : String) : Bool :=
  (getAttr attrs k).isSome

/-! ## Static tables of `html-analyzer.js` -/

/-- The `violationToWCAG` map. -/
def violationToWCAG : String → List String
  | "img-missing-alt" => ["1.1.1"]
  | "img-empty-alt-not-decorative" => ["1.1.1"]
  | "img-redundant-alt" => ["1.1.1"]
  | "form-input-missing-label" => ["3.3.2", "4.1.2"]
  | "button-empty" => ["4.1.2"]
  | "link-empty" => ["2.4.4"]
  | "link-non-descriptive" => ["2.4.4"]
  | "link-new-window-no-warning" => ["3.2.5"]
  | "iframe-missing-title" => ["4.1.2"]
  | "div-as-button" => ["4.1.2"]
  | "click-without-keyboard" => ["2.1.1"]
  | "positive-tabindex" => ["2.4.3"]
  | "missing-lang" => ["3.1.1"]
  | "missing-lang-foreign" => ["3.1.2"]
  | "heading-empty" => ["2.4.6"]
  | "heading-hierarchy" => ["2.4.6"]
  | "table-missing-headers" => ["1.3.1"]
  | "autoplay-media" => ["1.4.2", "2.2.2"]
  | "media-no-captions" => ["1.2.2", "1.2.3"]
  | "redundant-role" => ["4.1.2"]
  | "invalid-aria-role" => ["4.1.2"]
  | "missing-aria-required" => ["4.1.2"]
  | "focus-outline-removed" => ["2.4.7"]
  | "title-empty" => ["2.4.2"]
  | "duplicate-id" => ["4.1.1"]
  | "marquee-element" => ["2.2.2"]
  | "missing-main-landmark" => ["1.3.1"]
  | "placeholder-as-label" => ["3.3.2"]
  | "missing-autocomplete" => ["1.3.5"]
  | "non-semantic-navigation" => ["1.3.1"]
  | "radio-missing-fieldset" => ["1.3.1", "3.3.2"]
  | "required-not-indicated" => ["3.3.2"]
  | _ => []

/-- The `fixSuggestions` table of `html-analyzer.js`. -/
def htmlFixSuggestions : String → List String
  | "img-missing-alt" =>
    ["Add alt attribute: <img src=\"logo.png\" alt=\"Company logo\">",
     "For decorative images: <img src=\"decoration.png\" alt=\"\">",
     "Describe the image content, not just \"image of...\""]
  | "img-empty-alt-not-decorative" =>
    ["If image is informative, add meaningful alt text",
     "If image is decorative, use alt=\"\" and role=\"presentation\""]
  | "img-redundant-alt" =>
    ["Remove words like \"image\", \"picture\", \"photo\" from alt text",
     "Focus on describing the content/purpose"]
  | "form-input-missing-label" =>
    ["<label for=\"username\">Username</label><input id=\"username\" type=\"text\">",
     "Or use aria-label: <input type=\"text\" aria-label=\"Username\">",
     "Or aria-labelledby: <span id=\"label\">Username</span><input aria-labelledby=\"label\">"]
  | "button-empty" =>
    ["Add text content: <button>Click me</button>",
     "Or aria-label: <button aria-label=\"Close dialog\">×</button>"]
  | "link-empty" =>
    ["Add link text: <a href=\"/page\">Read more</a>",
     "Or aria-label: <a href=\"/page\" aria-label=\"Read more about accessibility\">→</a>"]
  | "iframe-missing-title" =>
    ["Add title attribute: <iframe src=\"...\" title=\"Embedded video player\"></iframe>",
     "Title should describe the iframe content"]
  | "div-as-button" =>
    ["Use <button> element: <button onclick=\"handler()\">Click me</button>",
     "Or add proper ARIA: <div role=\"button\" tabindex=\"0\" onkeydown=\"keyHandler()\">"]
  | "click-without-keyboard" =>
    ["Add keyboard support: <div onclick=\"handler()\" onkeydown=\"keyHandler()\" tabindex=\"0\">",
     "Or use semantic element: <button onclick=\"handler()\">"]
  | "positive-tabindex" =>
    ["Remove positive tabindex values",
     "Use tabindex=\"0\" for custom interactive elements",
     "Let natural tab order work for native elements"]
  | "missing-lang" =>
    ["Add lang attribute to <html>: <html lang=\"en\">",
     "Use appropriate language code"]
  | "heading-empty" =>
    ["Add text content: <h1>Page Title</h1>",
     "Or aria-label: <h1 aria-label=\"Section title\"><span class=\"icon\"></span></h1>"]
  | "table-missing-headers" =>
    ["Use <thead> and <th>: <thead><tr><th>Name</th><th>Age</th></tr></thead>",
     "Add scope: <th scope=\"col\">Name</th>"]
  | "autoplay-media" =>
    ["Remove autoplay: <video src=\"...\" controls></video>",
     "Or add muted for background: <video autoplay muted loop></video>"]
  | "redundant-role" =>
    ["Remove redundant role that matches implicit semantics",
     "Example: <button role=\"button\"> should be just <button>"]
  | "invalid-aria-role" =>
    ["Use valid ARIA role from specification",
     "Check: https://www.w3.org/TR/wai-aria/#role_definitions"]
  | "missing-aria-required" =>
    ["Add required ARIA properties for this role",
     "Example: role=\"checkbox\" requires aria-checked"]
  | "focus-outline-removed" =>
    ["Do not remove focus outlines globally",
     "Provide custom visible focus styles if removing default"]
  | "title-empty" =>
    ["Add descriptive title: <title>Page Name - Site Name</title>",
     "Title should describe the page content"]
  | "duplicate-id" =>
    ["Ensure all id attributes are unique",
     "Duplicate IDs break ARIA relationships and form labels"]
  | "marquee-element" =>
    ["Do not use <marquee> or <blink> elements",
     "Use CSS animations with prefers-reduced-motion support"]
  | "media-no-captions" =>
    ["Add <track> element for captions: <video><track kind=\"captions\" src=\"captions.vtt\"></video>",
     "Or provide transcript link below media"]
  | "link-new-window-no-warning" =>
    ["Add warning text: <a href=\"...\" target=\"_blank\">Link (opens in new window)</a>",
     "Or use aria-label: <a href=\"...\" target=\"_blank\" aria-label=\"Link, opens in new window\">"]
  | "missing-main-landmark" =>
    ["Add <main> element to wrap primary content",
     "There should be exactly one <main> per page"]
  | "placeholder-as-label" =>
    ["Add proper label: <label for=\"name\">Name</label><input id=\"name\" placeholder=\"e.g. John\">",
     "Placeholders disappear on focus and are not read by all screen readers"]
  | "missing-autocomplete" =>
    ["Add autocomplete: <input type=\"text\" name=\"name\" autocomplete=\"name\">",
     "For email: autocomplete=\"email\", for credit card: autocomplete=\"cc-number\""]
  | "non-semantic-navigation" =>
    ["Use <nav> element: <nav><a href=\"home.html\">Home</a></nav>",
     "Semantic elements improve accessibility"]
  | "radio-missing-fieldset" =>
    ["<fieldset><legend>Choose option</legend><input type=\"radio\">...</fieldset>",
     "Group related radio buttons with fieldset and legend"]
  | "required-not-indicated" =>
    ["Add visual indicator: <label>Email <span aria-hidden=\"true\">*</span><span class=\"sr-only\">required</span></label>",
     "Or use aria-required: <input type=\"email\" aria-required=\"true\">"]
  | "link-non-descriptive" =>
    ["Use descriptive text instead of \"click here\" or \"read more\"",
     "Example: \"Read our accessibility guide\" instead of \"Click here\""]
  | "missing-lang-foreign" =>
    ["Add lang attribute to foreign language text: <p lang=\"fr\">Bonjour</p>",
     "Screen readers use lang to pronounce text correctly"]
  | "heading-hierarchy" =>
    ["Follow heading hierarchy: h1 -> h2 -> h3 (do not skip levels)",
     "Headings should not jump from h1 to h3"]
  | _ => []

/-- The `validAriaRoles` set. -/
def validAriaRoles : List String :=
  ["alert", "alertdialog", "application", "article", "banner", "button",
   "cell", "checkbox", "columnheader", "combobox", "complementary",
   "contentinfo", "definition", "dialog", "directory", "document",
   "feed", "figure", "form", "grid", "gridcell", "group", "heading",
   "img", "link", "list", "listbox", "listitem", "log", "main",
   "marquee", "math", "menu", "menubar", "menuitem", "menuitemcheckbox",
   "menuitemradio", "navigation", "none", "note", "option", "presentation",
   "progressbar", "radio", "radiogroup", "region", "row", "rowgroup",
   "rowheader", "scrollbar", "search", "searchbox", "separator", "slider",
   "spinbutton", "status", "switch", "tab", "table", "tablist", "tabpanel",
   "term", "textbox", "timer", "toolbar", "tooltip", "tree", "treegrid",
   "treeitem"]

/-- The `roleRequiredAria` map; `none` models an absent key. -/
def roleRequiredAria : String → Option (List String)
  | "checkbox" => some ["aria-checked"]
  | "combobox" => some ["aria-expanded", "aria-controls"]
  | "radio" => some ["aria-checked"]
  | "scrollbar" => some ["aria-controls", "aria-valuenow", "aria-valuemin", "aria-valuemax"]
  | "slider" => some ["aria-valuenow", "aria-valuemin", "aria-valuemax"]
  | "spinbutton" => some ["aria-valuenow"]
  | "switch" => some ["aria-checked"]
  | "tab" => some ["aria-selected"]
  | "progressbar" => some ["aria-valuenow"]
  | _ => none

/-- The `implicitRoles` map.  The two entries keyed by CSS-selector-like
strings (`input[type="checkbox"]`, `input[type="radio"]`) are looked up by
plain tag name in the source and therefore can never be hit; they are kept
here under their literal keys. -/
def implicitRoles : String → Option String
  | "button" => some "button"
  | "a" => some "link"
  | "nav" => some "navigation"
  | "main" => some "main"
  | "header" => some "banner"
  | "footer" => some "contentinfo"
  | "aside" => some "complementary"
  | "section" => some "region"
  | "article" => some "article"
  | "form" => some "form"
  | "table" => some "table"
  | "ul" => some "list"
  | "ol" => some "list"
  | "li" => some "listitem"
  | "h1" => some "heading"
  | "h2" => some "heading"
  | "h3" => some "heading"
  | "h4" => some "heading"
  | "h5" => some "heading"
  | "h6" => some "heading"
  | "img" => some "img"
  | "input[type=\"checkbox\"]" => some "checkbox"
  | "input[type=\"radio\"]" => some "radio"
  | "select" => some "combobox"
  | "textarea" => some "textbox"
  | _ => none

/-! ## The shared violation shape emitted by `analyzeHTML`

Every push in `analyzeHTML` builds the object
`{ruleId, severity, line, column: 1, message, wcag: violationToWCAG[ruleId],
fix: fixSuggestions[ruleId]}`; `pushV` abbreviates exactly that shape. -/

structure Violation where
  ruleId : String
  severity : String
  message : String
  line : Int
  column : Int
  wcag : List String
  fix : List String
deriving DecidableEq

def pushV (rid sev msg : String) (line : Int) : Violation :=
  ⟨rid, sev, msg, line, 1, violationToWCAG rid, htmlFixSuggestions rid⟩

/-- A conditional push: `if cond { violations.push(v) }`. -/
def emitIf (b : Bool) (v : Violation) : List Violation := if b then [v] else []

/-! ## Raw-text checks of `analyzeHTML`

Each regex of the source is translated into a character scanner with the
same matching semantics (documented per definition). -/

/-- Continuation of `/<html[^>]*\slang=/i` after `<html`: walk characters
that are not `>`; a match needs a whitespace character directly followed by
`lang=` somewhere in that run. -/
def langScan : List Char → Bool
  | [] => false
  | c :: rest =>
    if c = '>' then false
    else (isJsWS c && startsWithCI "lang=".data rest) || langScan rest

def hasHtmlLangAttr (cs : List Char) : Bool :=
  existsTail (fun t => startsWithCI "<html".data t && langScan (t.drop 5)) cs

/-- Characters after the first `>` (the regex piece `[^>]*>` is forced to
stop at the first `>`). -/
def scanPastGt : List Char → Option (List Char)
  | [] => none
  | c :: r => if c = '>' then some r else scanPastGt r

/-- The `(.*?)` group of `/<title[^>]*>(.*?)<\/title>/is`: the (lazy,
dot-matches-newline) characters before the first occurrence of the closing
pattern. -/
def takeUntilCI (pat : List Char) : List Char → Option (List Char)
  | [] => if startsWithCI pat [] then some [] else none
  | c :: r =>
    if startsWithCI pat (c :: r) then some []
    else (takeUntilCI pat r).map (fun l => c :: l)

def titleMatchAt (t : List Char) : Option (List Char) :=
  if startsWithCI "<title".data t then
    match scanPastGt (t.drop 6) with
    | some rest => takeUntilCI "</title>".data rest
    | none => none
  else none

/-- `content.match(/<title[^>]*>(.*?)<\/title>/is)`, returning group 1 of the
leftmost match. -/
def jsTitleGroup (cs : List Char) : Option (List Char) :=
  (firstTailSome titleMatchAt cs 0).map (fun p => p.2)

/-- `/<main[\s>]/i`. -/
def hasMainTag (cs : List Char) : Bool :=
  existsTail
    (fun t =>
      startsWithCI "<main".data t &&
      (match t.drop 5 with
       | c :: _ => isJsWS c || c = '>'
       | [] => false)) cs

/-- `/role=["']main["']/i`. -/
def hasRoleMain (cs : List Char) : Bool :=
  existsTail
    (fun t =>
      startsWithCI "role=".data t &&
      (match t.drop 5 with
       | q :: r =>
         isQuote q && startsWithCI "main".data r &&
         (match r.drop 4 with
          | q2 :: _ => isQuote q2
          | [] => false)
       | [] => false)) cs

/-- One match of `/<(marquee|blink)[\s>]/gi`: the captured group (in its
original casing, as `match[1]` of a case-insensitive regex) and the match
length used to advance `lastIndex`. -/
def marqueeMatchAt (t : List Char) : Option (String × Nat) :=
  if startsWithCI "<marquee".data t then
    match t.drop 8 with
    | c :: _ => if isJsWS c || c = '>' then some (String.mk ((t.drop 1).take 7), 9) else none
    | [] => none
  else if startsWithCI "<blink".data t then
    match t.drop 6 with
    | c :: _ => if isJsWS c || c = '>' then some (String.mk ((t.drop 1).take 5), 7) else none
    | [] => none
  else none

/-- The `exec` loop over the global marquee regex: indices and captured tag
names of all matches, resuming after each match end. -/
def marqueeScanG : List Char → Nat → Nat → List (Nat × String)
  | [], _, _ => []
  | _ :: rest, i, skip + 1 => marqueeScanG rest (i + 1) skip
  | c :: rest, i, 0 =>
    match marqueeMatchAt (c :: rest) with
    | some (tag, len) => (i, tag) :: marqueeScanG rest (i + 1) (len - 1)
    | none => marqueeScanG rest (i + 1) 0

/-- `outline:\s*none` (case-insensitively) at the head, returning the
consumed length. -/
def outlineTailAt (t : List Char) : Option Nat :=
  if startsWithCI "outline:".data t then
    let rest := t.drop 8
    let w := (rest.takeWhile (fun c => isJsWS c)).length
    if startsWithCI "none".data (rest.drop w) then some (8 + w + 4) else none
  else none

/-- The `[^"']*outline:\s*none` piece of the inline-style regex inside the
quote-free segment: the greedy star prefers the latest possible start, so a
later match wins; the result is the offset just past `none`. -/
def outlineSegScan : List Char → Option Nat
  | [] => none
  | c :: r =>
    if isQuote c then none
    else
      match outlineSegScan r with
      | some e => some (e + 1)
      | none => outlineTailAt (c :: r)

/-- One match of `/style=["'][^"']*outline:\s*none/gi` at the head, with its
total length. -/
def outlineMatchAt (t : List Char) : Option Nat :=
  if startsWithCI "style=".data t then
    match t.drop 6 with
    | q :: seg => if isQuote q then (outlineSegScan seg).map (fun e => 7 + e) else none
    | [] => none
  else none

/-- The `exec` loop over the global inline-style outline regex: the indices
of all matches. -/
def outlineScanG : List Char → Nat → Nat → List Nat
  | [], _, _ => []
  | _ :: rest, i, skip + 1 => outlineScanG rest (i + 1) skip
  | c :: rest, i, 0 =>
    match outlineMatchAt (c :: rest) with
    | some len => i :: outlineScanG rest (i + 1) (len - 1)
    | none => outlineScanG rest (i + 1) 0

/-- Characters up to and including the first `>` (`[^>]*>` or `[^>]+...>`
pieces can only stop there). -/
def scanToGtLen : List Char → Option Nat
  | [] => none
  | c :: r => if c = '>' then some 1 else (scanToGtLen r).map (fun n => n + 1)

/-- Length of the `[^<]*` run before the first `<`. -/
def scanToLtLen : List Char → Nat
  | [] => 0
  | c :: r => if c = '<' then 0 else 1 + scanToLtLen r

/-- One repetition `<a[^>]+href[^>]*>[^<]*<\/a>\s*` of the navigation
pattern at the head, with its consumed length.  The `[^>]+href[^>]*` piece
holds exactly when `href` occurs inside the tag body at offset at least one
(the `+` demands a preceding character). -/
def navAnchorAt (t : List Char) : Option Nat :=
  if startsWithCI "<a".data t then
    let rest := t.drop 2
    match scanToGtLen rest with
    | some g =>
      let seg := rest.take (g - 1)
      let hrefOk :=
        match seg with
        | [] => false
        | _ :: s1 => existsTail (fun u => startsWithCI "href".data u) s1
      if hrefOk then
        let after := rest.drop g
        let k := scanToLtLen after
        if startsWithCI "</a>".data (after.drop k) then
          let w := ((after.drop (k + 4)).takeWhile (fun c => isJsWS c)).length
          some (2 + g + k + 4 + w)
        else none
      else none
    | none => none
  else none

/-- Greedy `{3,}` loop over anchor repetitions: consumed length and
repetition count (the regex backtracks to the complete repetitions). -/
def navRepsLoop : Nat → List Char → Nat × Nat
  | 0, _ => (0, 0)
  | fuel + 1, t =>
    match navAnchorAt t with
    | some l =>
      let p := navRepsLoop fuel (t.drop l)
      (l + p.1, p.2 + 1)
    | none => (0, 0)

/-- One match of `/<div[^>]*>\s*(<a[^>]+href[^>]*>[^<]*<\/a>\s*){3,}/gi` at
the head, with its total length. -/
def navMatchAt (t : List Char) : Option Nat :=
  if startsWithCI "<div".data t then
    match scanToGtLen (t.drop 4) with
    | some g =>
      let after := t.drop (4 + g)
      let w := (after.takeWhile (fun c => isJsWS c)).length
      let p := navRepsLoop (after.length + 1) (after.drop w)
      if p.2 ≥ 3 then some (4 + g + w + p.1) else none
    | none => none
  else none

/-- `content.match(navPattern)`: start index and length of the first match
(`navMatches[0]` is the matched text; only the first element is used). -/
def navFirstMatch (cs : List Char) : Option (Nat × Nat) := firstTailSome navMatchAt cs 0

/-- `/<nav/i`. -/
def hasNavTag (cs : List Char) : Bool :=
  existsTail (fun t => startsWithCI "<nav".data t) cs

/-- The navigation check run inside the parse handler: a first match of the
anchor-cluster pattern, with no `<nav` anywhere, yields one violation whose
line is that of the first occurrence of the matched text. -/
def navViolations (cs : List Char) (lines : List (List Char)) : List Violation :=
  match navFirstMatch cs with
  | some (i, len) =>
    if hasNavTag cs then []
    else
      [pushV "non-semantic-navigation" "warning"
        "Multiple navigation links should be wrapped in <nav> element"
        (getLineNumber lines (jsIndexOf cs ((cs.drop i).take len)))]
  | none => []

/-- First alternative of `/\b(image|picture|photo|graphic)\s+(of|depicting)\b/i`
at the head, with the remainder after the word. -/
def matchAltWord (t : List Char) : Option (List Char) :=
  if startsWithCI "image".data t then some (t.drop 5)
  else if startsWithCI "picture".data t then some (t.drop 7)
  else if startsWithCI "photo".data t then some (t.drop 5)
  else if startsWithCI "graphic".data t then some (t.drop 7)
  else none

def matchAltTail (t : List Char) : Bool :=
  match matchAltWord t with
  | some r =>
    let w := (r.takeWhile (fun c => isJsWS c)).length
    if 1 ≤ w then
      let r2 := r.drop w
      let boundaryAfter : List Char → Bool := fun rr =>
        match rr with
        | [] => true
        | c :: _ => !isWordChar c
      (startsWithCI "of".data r2 && boundaryAfter (r2.drop 2)) ||
      (startsWithCI "depicting".data r2 && boundaryAfter (r2.drop 9))
    else false
  | none => false

/-- Scan for the redundant-alt pattern carrying the previous character for
the leading word boundary. -/
def redundantAltScan : Option Char → List Char → Bool
  | _, [] => false
  | prev, c :: r =>
    let boundary :=
      match prev with
      | none => true
      | some p => !isWordChar p
    (boundary && matchAltTail (c :: r)) || redundantAltScan (some c) r

def redundantAltTest (s : String) : Bool := redundantAltScan none s.data

/-! ## Per-node checks of the traversal phase -/

/-- `node.children.some(child => (child.type === 'text' && child.data.trim())
|| child.type === 'tag')`. -/
def hasTextOrTagChild (children : List DNode) : Bool :=
  children.any fun n =>
    match n with
    | .text d => jsTrim d.data ≠ []
    | .tag _ _ _ => true

/-- Link content additionally accepts an `img` child with truthy `alt`. -/
def linkHasContent (children : List DNode) : Bool :=
  children.any fun n =>
    match n with
    | .text d => jsTrim d.data ≠ []
    | .tag nm a _ => nm = "img" && truthyAttr a "alt"

/-- `children.filter(text).map(trim).join(' ').toLowerCase()`. -/
def linkTextContent (children : List DNode) : List Char :=
  lcList (List.intercalate [' ']
    (children.filterMap fun n =>
      match n with
      | .text d => some (jsTrim d.data)
      | .tag _ _ _ => none))

def nonDescriptivePhrases : List String := ["click here", "read more", "more", "here", "link"]

def mediaHasTrack (children : List DNode) : Bool :=
  children.any fun n =>
    match n with
    | .tag nm a _ =>
      nm = "track" && (getAttr a "kind" = some "captions" || getAttr a "kind" = some "subtitles")
    | .text _ => false

mutual

/-- `hasHeaderElements` of the table check. -/
def hasHeaderN : DNode → Bool
  | .tag n _ c => n = "thead" || n = "th" || hasHeaderL c
  | .text _ => false

def hasHeaderL : List DNode → Bool
  | [] => false
  | n :: r => hasHeaderN n || hasHeaderL r

end

/-- `/^h[1-6]$/`. -/
def isHeadingTag (n : String) : Bool :=
  match n.data with
  | ['h', d] => '1' ≤ d && d ≤ '6'
  | _ => false

/-- `parseInt(node.name[1])` for a heading tag. -/
def headingLevelOf (n : String) : Int :=
  match n.data with
  | [_, d] => ((d.toNat - 48 : Nat) : Int)
  | _ => 0

def personalFields : List String := ["email", "name", "tel", "url", "text"]

def personalNames : List String :=
  ["email", "name", "fullname", "username", "tel", "phone", "card", "cardnumber",
   "cc-", "address", "postal", "country"]

/-- `!hasLabel` with `hasLabel = attrs['aria-label'] || attrs['aria-labelledby']
|| attrs.id` (JavaScript truthiness: an empty attribute value does not
count). -/
def inputHasLabel (attrs : List (String × String)) : Bool :=
  truthyAttr attrs "aria-label" || truthyAttr attrs "aria-labelledby" || truthyAttr attrs "id"

/-- The guard of the input checks: an `input` whose `type` is not `hidden`,
`submit` or `button` (an absent `type` qualifies). -/
def checkableInput (name : String) (attrs : List (String × String)) : Bool :=
  name = "input" && getAttr attrs "type" ≠ some "hidden" &&
    getAttr attrs "type" ≠ some "submit" && getAttr attrs "type" ≠ some "button"

def imgChecks (name : String) (attrs : List (String × String)) (ln : Int) : List Violation :=
  if name = "img" then
    match getAttr attrs "alt" with
    | none => [pushV "img-missing-alt" "error" "Image elements must have an alt attribute" ln]
    | some a =>
      if a ≠ "" && redundantAltTest a then
        [pushV "img-redundant-alt" "warning"
          "Alt text should not include redundant words like \"image of\" or \"picture of\"" ln]
      else []
  else []

def inputChecks (name : String) (attrs : List (String × String)) (ln : Int) : List Violation :=
  if checkableInput name attrs then
    emitIf (!inputHasLabel attrs)
      (pushV "form-input-missing-label" "error" "Form input must have an associated label" ln) ++
    emitIf (truthyAttr attrs "placeholder" && !inputHasLabel attrs)
      (pushV "placeholder-as-label" "error"
        "Placeholder should not be used as a label replacement" ln) ++
    emitIf
      (((match getAttr attrs "type" with
        | some t => t ∈ personalFields
        | none => false) ||
       (match getAttr attrs "name" with
        | some nm => personalNames.any (fun f => containsCS (lcList nm.data) f.data)
        | none => false)) &&
       !truthyAttr attrs "autocomplete")
      (pushV "missing-autocomplete" "warning"
        "Personal info input should have autocomplete attribute" ln) ++
    emitIf (hasAttr attrs "required" && !truthyAttr attrs "aria-required")
      (pushV "required-not-indicated" "warning"
        "Required fields should have aria-required and visual indication" ln)
  else []

def buttonCheck (name : String) (attrs : List (String × String)) (children : List DNode)
    (ln : Int) : List Violation :=
  emitIf
    (name = "button" && !hasTextOrTagChild children &&
      !(truthyAttr attrs "aria-label" || truthyAttr attrs "aria-labelledby"))
    (pushV "button-empty" "error" "Button must have text content or aria-label" ln)

def linkChecks (name : String) (attrs : List (String × String)) (children : List DNode)
    (ln : Int) : List Violation :=
  if name = "a" then
    emitIf
      (!linkHasContent children &&
        !(truthyAttr attrs "aria-label" || truthyAttr attrs "aria-labelledby"))
      (pushV "link-empty" "error" "Link must have text content or aria-label" ln) ++
    (if linkHasContent children then
      let txt := linkTextContent children
      emitIf (nonDescriptivePhrases.any (fun p => txt = p.data))
        (pushV "link-non-descriptive" "warning"
          ("Non-descriptive link text: \"" ++ String.mk txt ++ "\"") ln)
    else []) ++
    (if getAttr attrs "target" = some "_blank" then
      let hasWarning :=
        match getAttr attrs "aria-label" with
        | some al => containsCS al.data "new window".data || containsCS al.data "new tab".data
        | none => false
      emitIf (!hasWarning)
        (pushV "link-new-window-no-warning" "warning"
          "Links opening in new windows should warn users" ln)
    else [])
  else []

def iframeCheck (name : String) (attrs : List (String × String)) (ln : Int) : List Violation :=
  emitIf (name = "iframe" && !truthyAttr attrs "title")
    (pushV "iframe-missing-title" "error" "Iframe elements must have a title attribute" ln)

def divSpanCheck (name : String) (attrs : List (String × String)) (ln : Int) : List Violation :=
  if (name = "div" || name = "span") && truthyAttr attrs "onclick" then
    emitIf
      (!(getAttr attrs "role" = some "button" && hasAttr attrs "tabindex" &&
        (truthyAttr attrs "onkeydown" || truthyAttr attrs "onkeypress" ||
          truthyAttr attrs "onkeyup")))
      (pushV "div-as-button" "error"
        "Interactive div/span must have role=\"button\", tabindex, and keyboard handlers" ln)
  else []

def tabindexCheck (attrs : List (String × String)) (ln : Int) : List Violation :=
  match getAttr attrs "tabindex" with
  | some v =>
    if v ≠ "" &&
        (match jsParseInt v with
         | some n => n > 0
         | none => false) then
      [pushV "positive-tabindex" "error"
        "Avoid positive tabindex values as they disrupt natural tab order" ln]
    else []
  | none => []

def headingCheck (name : String) (attrs : List (String × String)) (children : List DNode)
    (ln : Int) : List Violation :=
  emitIf
    (isHeadingTag name && !hasTextOrTagChild children &&
      !(truthyAttr attrs "aria-label" || truthyAttr attrs "aria-labelledby"))
    (pushV "heading-empty" "error" "Heading must have text content or aria-label" ln)

def tableCheck (name : String) (children : List DNode) (ln : Int) : List Violation :=
  emitIf (name = "table" && !hasHeaderL children)
    (pushV "table-missing-headers" "error" "Table must have <thead> and <th> elements" ln)

def autoplayCheck (name : String) (attrs : List (String × String)) (ln : Int) : List Violation :=
  emitIf
    ((name = "video" || name = "audio") && hasAttr attrs "autoplay" &&
      !truthyAttr attrs "muted" && !truthyAttr attrs "controls")
    (pushV "autoplay-media" "error" "Autoplaying media must be muted or have controls" ln)

def captionsCheck (name : String) (children : List DNode) (ln : Int) : List Violation :=
  emitIf ((name = "video" || name = "audio") && !mediaHasTrack children)
    (pushV "media-no-captions" "error"
      ((if name = "video" then "Video" else "Audio") ++ " must have captions or transcript") ln)

def roleChecks (name : String) (attrs : List (String × String)) (ln : Int) : List Violation :=
  match getAttr attrs "role" with
  | some role =>
    if role = "" then []
    else
      emitIf (implicitRoles name = some role)
        (pushV "redundant-role" "warning"
          ("Redundant role=\"" ++ role ++ "\" on <" ++ name ++ "> element") ln) ++
      emitIf (!(role ∈ validAriaRoles))
        (pushV "invalid-aria-role" "error" ("Invalid ARIA role: \"" ++ role ++ "\"") ln) ++
      (match roleRequiredAria role with
       | some req =>
         req.flatMap fun prop =>
           emitIf (!truthyAttr attrs prop)
             (pushV "missing-aria-required" "error"
               ("Role \"" ++ role ++ "\" requires " ++ prop ++ " attribute") ln)
       | none => [])
  | none => []

/-- All per-node checks of the traversal, in source order. -/
def nodeChecks (name : String) (attrs : List (String × String)) (children : List DNode)
    (ln : Int) : List Violation :=
  imgChecks name attrs ln ++
  inputChecks name attrs ln ++
  buttonCheck name attrs children ln ++
  linkChecks name attrs children ln ++
  iframeCheck name attrs ln ++
  divSpanCheck name attrs ln ++
  tabindexCheck attrs ln ++
  headingCheck name attrs children ln ++
  tableCheck name children ln ++
  autoplayCheck name attrs ln ++
  captionsCheck name children ln ++
  roleChecks name attrs ln

/-! ## The traversal phase

The mutable `lineNumber` of the source is threaded explicitly: on each tag
node the source searches `content.indexOf('<' + tagName, offset)` with
`offset = lines.slice(0, lineNumber - 1).join('\n').length` when
`lineNumber > 1` (else 0), and updates `lineNumber` when found. -/

def updateLine (cs : List Char) (lines : List (List Char)) (name : String) (ln : Int) : Int :=
  let fromIdx : Nat := if ln > 1 then joinedLen (lines.take (ln - 1).toNat) else 0
  let idx := jsIndexOfFrom cs ('<' :: name.data) fromIdx
  if idx ≠ -1 then getLineNumber lines idx else ln

mutual

def travNode (cs : List Char) (lines : List (List Char)) : DNode → Int → List Violation × Int
  | .text _, ln => ([], ln)
  | .tag name attrs children, ln =>
    let ln2 := updateLine cs lines name ln
    let own := nodeChecks name attrs children ln2
    let rec2 := travList cs lines children ln2
    (own ++ rec2.1, rec2.2)

def travList (cs : List Char) (lines : List (List Char)) : List DNode → Int → List Violation × Int
  | [], ln => ([], ln)
  | n :: rest, ln =>
    let r1 := travNode cs lines n ln
    let r2 := travList cs lines rest r1.2
    (r1.1 ++ r2.1, r2.2)

end

/-! ## Post-traversal passes

`collectIds`, `collectHeadings` and `collectRadios` each walk the whole tree
in depth-first pre-order.  None of them re-runs the `indexOf` line search, so
every record carries the value the mutable `lineNumber` holds after the
traversal phase; the emitted output therefore only depends on the depth-first
sequence of collected values plus that one final line number, and the
embedding collects the sequences first and then folds over them exactly as
the source loops do. -/

mutual

/-- Depth-first pre-order sequence of truthy `id` attribute values
(`node.attribs?.id` is a truthiness test, so empty values are skipped). -/
def idsOfNode : DNode → List String
  | .text _ => []
  | .tag _ attrs children =>
    (match getAttr attrs "id" with
     | some v => if v ≠ "" then [v] else []
     | none => []) ++ idsOfList children

def idsOfList : List DNode → List String
  | [] => []
  | n :: r => idsOfNode n ++ idsOfList r

end

/-- The first-seen map fold of `collectIds`: a violation for every occurrence
of an already-seen value, at the traversal-final line. -/
def dupIdFold (ln : Int) : List String → List String → List Violation
  | [], _ => []
  | id :: rest, seen =>
    if id ∈ seen then
      pushV "duplicate-id" "error" ("Duplicate ID \"" ++ id ++ "\" found") ln ::
        dupIdFold ln rest seen
    else dupIdFold ln rest (id :: seen)

def dupIdViolations (dom : List DNode) (ln : Int) : List Violation :=
  dupIdFold ln (idsOfList dom) []

mutual

/-- Depth-first pre-order heading levels (`/^h[1-6]$/` tags). -/
def headingsOfNode : DNode → List Int
  | .text _ => []
  | .tag name _ children =>
    (if isHeadingTag name then [headingLevelOf name] else []) ++ headingsOfList children

def headingsOfList : List DNode → List Int
  | [] => []
  | n :: r => headingsOfNode n ++ headingsOfList r

end

/-- The pairwise loop over collected headings: a violation whenever a level
exceeds its predecessor by more than one, attached to the line all collected
headings share (the traversal-final `lineNumber`). -/
def headingHierViolations (ln : Int) : List Int → List Violation
  | a :: b :: t =>
    emitIf (decide (b > a + 1))
      (pushV "heading-hierarchy" "warning"
        ("Heading hierarchy skipped from h" ++ toString a ++ " to h" ++ toString b) ln) ++
    headingHierViolations ln (b :: t)
  | _ => []

mutual

/-- Depth-first pre-order `name` attributes of `input[type=radio]` nodes
(`node.attribs?.type === 'radio'`); `none` models an absent `name`. -/
def radiosOfNode : DNode → List (Option String)
  | .text _ => []
  | .tag name attrs children =>
    (if name = "input" ∧ getAttr attrs "type" = some "radio" then [getAttr attrs "name"]
     else []) ++ radiosOfList children

def radiosOfList : List DNode → List (Option String)
  | [] => []
  | n :: r => radiosOfNode n ++ radiosOfList r

end

/-- Build the `radioGroups` map: insertion-ordered counts of truthy radio
names (`if (radio.name)` skips absent and empty names). -/
def radioGroupCounts : List (Option String) → List (String × Nat) → List (String × Nat)
  | [], acc => acc
  | none :: rest, acc => radioGroupCounts rest acc
  | some nm :: rest, acc =>
    if nm = "" then radioGroupCounts rest acc
    else if acc.any (fun p => p.1 = nm) then
      radioGroupCounts rest (acc.map (fun p => if p.1 = nm then (p.1, p.2 + 1) else p))
    else radioGroupCounts rest (acc ++ [(nm, 1)])

/-- The fieldset test of `collectRadios`.  The source tests `content` against
the regex literal
`/<fieldset[^>]*>[\s\S]*?<input[^>]*type=["']?radio["']?[^>]*name=["']?${name}["']?/i`.
A regex literal performs no interpolation: `$` is the end-of-input anchor and
`{name}` the six literal characters that follow it.  Because the anchor
admits no further input while the literal `{name}` still has to consume
characters, the regex matches no string at all, and the test is constantly
false. -/
def radioFieldsetRegexTest (_name : String) (_content : List Char) : Bool := false

/-- The group loop of the radio check: one violation per name shared by two
or more radio inputs whenever the (unsatisfiable) fieldset regex fails, at
`lines[0]` — which is the traversal-final line, since every collected radio
records that same value. -/
def radioViolations (cs : List Char) (dom : List DNode) (ln : Int) : List Violation :=
  (radioGroupCounts (radiosOfList dom) []).filterMap fun p =>
    if p.2 > 1 then
      if !radioFieldsetRegexTest p.1 cs then
        some (pushV "radio-missing-fieldset" "warning"
          ("Radio button group \"" ++ p.1 ++
            "\" should be wrapped in <fieldset> with <legend>") ln)
      else none
    else none

/-! ## `analyzeHTML` -/

/-- The raw-text checks that precede the parse, in source order:
missing `lang`, empty/missing `title`, missing `main` landmark, deprecated
`marquee`/`blink` elements. -/
def preParseChecks (cs : List Char) (lines : List (List Char)) : List Violation :=
  emitIf (!hasHtmlLangAttr cs)
    (pushV "missing-lang" "error" "The <html> element must have a lang attribute" 1) ++
  (match jsTitleGroup cs with
   | some g =>
     if jsTrim g = [] then
       [pushV "title-empty" "error" "Page must have a non-empty <title> element"
         (getLineNumber lines (jsIndexOf cs "<title".data))]
     else []
   | none =>
     [pushV "title-empty" "error" "Page must have a non-empty <title> element"
       (getLineNumber lines (jsIndexOf cs "<title".data))]) ++
  emitIf (!(hasMainTag cs || hasRoleMain cs))
    (pushV "missing-main-landmark" "error" "Page should have a <main> landmark element" 1) ++
  (marqueeScanG cs 0 0).map fun p =>
    pushV "marquee-element" "error"
      ("<" ++ p.2 ++ "> element is deprecated and causes accessibility issues")
      (getLineNumber lines (p.1 : Int))

/-- The final raw-text check (after the parse): inline-style outline
removal. -/
def outlineViolations (cs : List Char) (lines : List (List Char)) : List Violation :=
  (outlineScanG cs 0 0).map fun i =>
    pushV "focus-outline-removed" "error"
      "Do not remove focus outlines without providing custom visible focus styles"
      (getLineNumber lines (i : Int))

/-- The markup evaluator `analyzeHTML` of `html-analyzer.js`.  The second
argument is the outcome of the external htmlparser2 parse of `content`: on a
parse error the `DomHandler` callback logs and returns early, so the handler
contributes nothing; on success the traversal phase (with the threaded
`lineNumber`, started at 1) runs, followed by the post-traversal passes and
the navigation check, all inside the handler, and the inline-style outline
scan afterwards. -/
def analyzeHTML (content : String) (parsed : Except String (List DNode)) : List Violation :=
  let cs := content.data
  let lines := splitLines cs
  preParseChecks cs lines ++
  (match parsed with
   | .error _ => []
   | .ok dom =>
     let tr := travList cs lines dom 1
     tr.1 ++
     dupIdViolations dom tr.2 ++
     headingHierViolations tr.2 (headingsOfList dom) ++
     radioViolations cs dom tr.2 ++
     navViolations cs lines) ++
  outlineViolations cs lines

/-! ## Static tables of `hybrid-analyzer.js` -/

/-- The `ruleToWCAG` map; an absent key falls back to `[]` via `|| []`. -/
def ruleToWCAG : String → List String
  | "jsx-a11y/alt-text" => ["1.1.1"]
  | "jsx-a11y/anchor-has-content" => ["2.4.4"]
  | "jsx-a11y/anchor-is-valid" => ["2.4.4"]
  | "jsx-a11y/aria-activedescendant-has-tabindex" => ["4.1.2"]
  | "jsx-a11y/aria-props" => ["4.1.2"]
  | "jsx-a11y/aria-proptypes" => ["4.1.2"]
  | "jsx-a11y/aria-role" => ["4.1.2"]
  | "jsx-a11y/aria-unsupported-elements" => ["4.1.2"]
  | "jsx-a11y/autocomplete-valid" => ["1.3.5"]
  | "jsx-a11y/click-events-have-key-events" => ["2.1.1"]
  | "jsx-a11y/control-has-associated-label" => ["4.1.2"]
  | "jsx-a11y/heading-has-content" => ["2.4.6"]
  | "jsx-a11y/html-has-lang" => ["3.1.1"]
  | "jsx-a11y/iframe-has-title" => ["4.1.2"]
  | "jsx-a11y/img-redundant-alt" => ["1.1.1"]
  | "jsx-a11y/interactive-supports-focus" => ["2.1.1"]
  | "jsx-a11y/label-has-associated-control" => ["3.3.2"]
  | "jsx-a11y/media-has-caption" => ["1.2.2"]
  | "jsx-a11y/mouse-events-have-key-events" => ["2.1.1"]
  | "jsx-a11y/no-access-key" => ["2.4.1"]
  | "jsx-a11y/no-autofocus" => ["2.4.3"]
  | "jsx-a11y/no-distracting-elements" => ["2.2.2"]
  | "jsx-a11y/no-interactive-element-to-noninteractive-role" => ["4.1.2"]
  | "jsx-a11y/no-noninteractive-element-interactions" => ["4.1.2"]
  | "jsx-a11y/no-noninteractive-element-to-interactive-role" => ["4.1.2"]
  | "jsx-a11y/no-noninteractive-tabindex" => ["2.1.1"]
  | "jsx-a11y/no-redundant-roles" => ["4.1.2"]
  | "jsx-a11y/no-static-element-interactions" => ["4.1.2"]
  | "jsx-a11y/role-has-required-aria-props" => ["4.1.2"]
  | "jsx-a11y/role-supports-aria-props" => ["4.1.2"]
  | "jsx-a11y/scope" => ["1.3.1"]
  | "jsx-a11y/tabindex-no-positive" => ["2.4.3"]
  | _ => []

/-- The `fixDescriptions` table with the `|| 'Review WCAG 2.2 documentation'`
fallback folded in. -/
def fixDescES : String → String
  | "jsx-a11y/alt-text" => "Add alt attribute with meaningful description"
  | "jsx-a11y/click-events-have-key-events" => "Add keyboard event handlers (onKeyDown)"
  | "jsx-a11y/no-static-element-interactions" =>
    "Replace with semantic button or add role and keyboard support"
  | "jsx-a11y/label-has-associated-control" => "Associate label with form control"
  | "jsx-a11y/interactive-supports-focus" => "Make interactive element keyboard focusable"
  | "jsx-a11y/aria-role" => "Use valid ARIA role from specification"
  | "jsx-a11y/media-has-caption" => "Add captions to video/audio elements"
  | "jsx-a11y/no-autofocus" => "Remove autoFocus attribute"
  | "jsx-a11y/tabindex-no-positive" => "Remove positive tabIndex values"
  | "jsx-a11y/aria-props" => "Fix ARIA property name"
  | "jsx-a11y/role-has-required-aria-props" => "Add required ARIA properties for this role"
  | "jsx-a11y/heading-has-content" => "Add text content to heading element"
  | "jsx-a11y/iframe-has-title" => "Add title attribute to iframe"
  | "jsx-a11y/no-distracting-elements" => "Remove <marquee> or <blink> elements"
  | "jsx-a11y/anchor-has-content" => "Add text content or aria-label to link"
  | "jsx-a11y/anchor-is-valid" => "Provide valid href or use button element"
  | "jsx-a11y/control-has-associated-label" => "Add accessible label to form control"
  | "jsx-a11y/mouse-events-have-key-events" => "Add keyboard equivalents for mouse events"
  | "jsx-a11y/img-redundant-alt" =>
    "Remove redundant words like \"image\" or \"picture\" from alt text"
  | "jsx-a11y/no-access-key" => "Remove accessKey attribute"
  | "jsx-a11y/aria-activedescendant-has-tabindex" =>
    "Add tabIndex when using aria-activedescendant"
  | "jsx-a11y/aria-proptypes" => "Use correct value type for ARIA property"
  | "jsx-a11y/aria-unsupported-elements" => "Remove ARIA from unsupported elements"
  | "jsx-a11y/autocomplete-valid" => "Use valid autocomplete value"
  | "jsx-a11y/html-has-lang" => "Add lang attribute to <html> element"
  | "jsx-a11y/no-interactive-element-to-noninteractive-role" =>
    "Do not override interactive element semantics"
  | "jsx-a11y/no-noninteractive-element-interactions" =>
    "Add proper role to non-interactive element with handlers"
  | "jsx-a11y/no-noninteractive-element-to-interactive-role" =>
    "Use semantic interactive elements instead"
  | "jsx-a11y/no-noninteractive-tabindex" => "Remove tabIndex from non-interactive elements"
  | "jsx-a11y/no-redundant-roles" => "Remove redundant role that matches implicit semantics"
  | "jsx-a11y/role-supports-aria-props" => "Remove ARIA properties not supported by role"
  | "jsx-a11y/scope" => "Use scope attribute only on <th> elements"
  | _ => "Review WCAG 2.2 documentation"

/-- The `fixSuggestions` table of `hybrid-analyzer.js` with the two-line
fallback folded in (curly braces of the JavaScript snippets are written via
their code points where they enclose full expressions). -/
def fixSuggES : String → List String
  | "jsx-a11y/alt-text" =>
    ["<img src=\"/logo.png\" alt=\"Company logo\" />",
     "<img src=\"/decorative.png\" alt=\"\" /> // For decorative images",
     "Describe what the image conveys, not just \"image of...\""]
  | "jsx-a11y/click-events-have-key-events" =>
    ["<div onClick=\x7bhandler\x7d onKeyDown=\x7b(e) => \x7b if (e.key === \"Enter\" || e.key === \" \") handler(); \x7d\x7d tabIndex=\x7b0\x7d>",
     "Or better: <button onClick=\x7bhandler\x7d>Click me</button>",
     "Keyboard users need Enter/Space key support"]
  | "jsx-a11y/no-static-element-interactions" =>
    ["Replace: <button onClick=\x7bhandler\x7d>Click me</button>",
     "Or add: <div role=\"button\" tabIndex=\x7b0\x7d onClick=\x7bhandler\x7d onKeyDown=\x7bkeyHandler\x7d>",
     "const keyHandler = (e) => \x7b if (e.key === \"Enter\" || e.key === \" \") handler(); \x7d"]
  | "jsx-a11y/label-has-associated-control" =>
    ["<label htmlFor=\"email\">Email</label><input id=\"email\" type=\"email\" />",
     "Or wrap: <label>Email <input type=\"email\" /></label>",
     "Or use: <input type=\"email\" aria-label=\"Email\" />"]
  | "jsx-a11y/interactive-supports-focus" =>
    ["<div role=\"button\" tabIndex=\x7b0\x7d onClick=\x7bhandler\x7d>",
     "Add tabIndex=\x7b0\x7d to make element focusable",
     "Consider using <button> instead for better semantics"]
  | "jsx-a11y/aria-role" =>
    ["Valid roles: button, link, menuitem, tab, checkbox, radio, dialog",
     "<div role=\"button\" tabIndex=\x7b0\x7d>Click me</div>",
     "See: https://www.w3.org/TR/wai-aria-1.2/#role_definitions"]
  | "jsx-a11y/media-has-caption" =>
    ["<video controls><track kind=\"captions\" src=\"captions.vtt\" /></video>",
     "<audio controls><track kind=\"captions\" src=\"captions.vtt\" /></audio>",
     "Always provide captions for accessibility"]
  | "jsx-a11y/no-autofocus" =>
    ["Remove: autoFocus=\x7btrue\x7d",
     "Let users control focus flow naturally",
     "Exception: When explicitly needed (e.g., search on page load)"]
  | "jsx-a11y/tabindex-no-positive" =>
    ["Remove: tabIndex=\x7b1\x7d, tabIndex=\x7b5\x7d, etc.",
     "Use: tabIndex=\x7b0\x7d for natural tab order",
     "Use: tabIndex=\x7b-1\x7d for programmatic focus only"]
  | "jsx-a11y/aria-props" =>
    ["Check spelling: aria-labelledby (not aria-labeledby)",
     "Valid props: aria-label, aria-describedby, aria-hidden, etc.",
     "See: https://www.w3.org/TR/wai-aria-1.2/#state_prop_def"]
  | "jsx-a11y/role-has-required-aria-props" =>
    ["role=\"checkbox\" requires: aria-checked",
     "role=\"slider\" requires: aria-valuemin, aria-valuemax, aria-valuenow",
     "Check MDN or W3C ARIA spec for role requirements"]
  | "jsx-a11y/heading-has-content" =>
    ["<h1>Page Title</h1>",
     "<h2>\x7bdynamicTitle\x7d</h2>",
     "Headings must not be empty"]
  | "jsx-a11y/iframe-has-title" =>
    ["<iframe src=\"...\" title=\"YouTube video player\" />",
     "<iframe src=\"...\" title=\"External content from example.com\" />",
     "Title helps users understand iframe purpose"]
  | "jsx-a11y/no-distracting-elements" =>
    ["Remove: <marquee> and <blink>",
     "Use CSS: animation or transition instead",
     "Provide controls to pause/stop animations"]
  | "jsx-a11y/anchor-has-content" =>
    ["<a href=\"/about\">About Us</a>",
     "<a href=\"/contact\" aria-label=\"Contact page\">📧</a>",
     "Links need visible text or aria-label"]
  | "jsx-a11y/anchor-is-valid" =>
    ["<a href=\"/page\">Go to page</a> // Valid navigation",
     "<button onClick=\x7bhandler\x7d>Do action</button> // For actions",
     "Avoid: href=\"#\" or href=\"javascript:void(0)\""]
  | "jsx-a11y/control-has-associated-label" =>
    ["<label htmlFor=\"name\">Name</label><input id=\"name\" />",
     "<input aria-label=\"Search\" type=\"search\" />",
     "<button aria-label=\"Close\">×</button>"]
  | "jsx-a11y/mouse-events-have-key-events" =>
    ["onMouseEnter + onFocus",
     "onMouseLeave + onBlur",
     "<div onMouseEnter=\x7bshow\x7d onFocus=\x7bshow\x7d onMouseLeave=\x7bhide\x7d onBlur=\x7bhide\x7d>"]
  | "jsx-a11y/img-redundant-alt" =>
    ["Avoid: alt=\"image of logo\" or alt=\"picture of product\"",
     "Better: alt=\"Acme Company logo\" or alt=\"Blue t-shirt product\"",
     "Screen readers already announce \"image\""]
  | "jsx-a11y/no-access-key" =>
    ["Remove: accessKey=\"s\"",
     "accessKey conflicts with screen readers and browser shortcuts",
     "Use visible keyboard shortcuts instead"]
  | "jsx-a11y/aria-activedescendant-has-tabindex" =>
    ["<div role=\"combobox\" aria-activedescendant=\x7bactiveId\x7d tabIndex=\x7b0\x7d>",
     "Element using aria-activedescendant must be focusable",
     "Add tabIndex=\x7b0\x7d or ensure element is naturally focusable"]
  | "jsx-a11y/aria-proptypes" =>
    ["aria-hidden=\"true\" (not \"yes\" or 1)",
     "aria-checked=\"true\" or \"false\" (not \"checked\")",
     "aria-expanded=\"true\" or \"false\" (boolean as string)"]
  | "jsx-a11y/aria-unsupported-elements" =>
    ["Remove ARIA from: <meta>, <html>, <style>, <script>",
     "These elements do not support ARIA attributes",
     "Use ARIA only on visible, interactive elements"]
  | "jsx-a11y/autocomplete-valid" =>
    ["<input type=\"email\" autoComplete=\"email\" />",
     "<input type=\"tel\" autoComplete=\"tel\" />",
     "See: https://html.spec.whatwg.org/multipage/form-control-infrastructure.html#autofill"]
  | "jsx-a11y/html-has-lang" =>
    ["<html lang=\"en\">",
     "<html lang=\"es\">",
     "Helps screen readers use correct pronunciation"]
  | "jsx-a11y/no-interactive-element-to-noninteractive-role" =>
    ["Avoid: <button role=\"article\">",
     "Do not override button, a, input, etc. with non-interactive roles",
     "Use semantic HTML as intended"]
  | "jsx-a11y/no-noninteractive-element-interactions" =>
    ["<li onClick=\x7bhandler\x7d> → <li role=\"button\" tabIndex=\x7b0\x7d onClick=\x7bhandler\x7d>",
     "Non-interactive elements need role and keyboard support",
     "Or use: <button onClick=\x7bhandler\x7d>Item</button>"]
  | "jsx-a11y/no-noninteractive-element-to-interactive-role" =>
    ["Avoid: <h1 role=\"button\">",
     "Use interactive elements: <button>, <a>, <input>",
     "Headings, paragraphs should not be interactive"]
  | "jsx-a11y/no-noninteractive-tabindex" =>
    ["Remove: <div tabIndex=\x7b0\x7d> (without interactive role)",
     "Add: <div role=\"button\" tabIndex=\x7b0\x7d>",
     "Only focusable elements should have tabIndex"]
  | "jsx-a11y/no-redundant-roles" =>
    ["Remove: <button role=\"button\">",
     "Remove: <nav role=\"navigation\">",
     "Semantic HTML already has implicit roles"]
  | "jsx-a11y/role-supports-aria-props" =>
    ["Avoid: <div role=\"button\" aria-placeholder=\"...\">",
     "Check ARIA spec for role-specific properties",
     "Each role supports only certain ARIA attributes"]
  | "jsx-a11y/scope" =>
    ["<th scope=\"col\">Header</th> // For column headers",
     "<th scope=\"row\">Label</th> // For row headers",
     "Do not use scope on <td> elements"]
  | _ =>
    ["Review WCAG 2.2 documentation",
     "Consult accessibility team for guidance"]

/-! ## The normalized dispatcher output -/

/-- The violation object the dispatcher returns.  The HTML/CSS/JS branches
never set `endLine`/`endColumn` (they stay `undefined`); the ESLint branch
copies them from the message.  `fix` is `v.fix[0]`, which is `undefined` for
an empty `fix` array (arrays are truthy in JavaScript even when empty). -/
structure HybridViolation where
  ruleId : String
  severity : String
  message : String
  description : String
  line : Int
  column : Int
  endLine : Option Int
  endColumn : Option Int
  wcag : List String
  fix : Option String
  suggestions : List String
deriving DecidableEq

/-- One ESLint message, as consumed by the adapter: `ruleId` may be `null`
(`none`), `severity` is numeric (2 means error). -/
structure LintMessage where
  ruleId : Option String
  severity : Int
  message : String
  line : Int
  column : Int
  endLine : Option Int
  endColumn : Option Int
deriving DecidableEq

/-- The per-violation transform the HTML, CSS and JS branches of
`analyzeFileHybrid` all apply: `fix: v.fix ? v.fix[0] : default` takes the
first branch even for an empty array, and `suggestions: v.fix || default`
likewise keeps the array. -/
def transformViolation (v : Violation) : HybridViolation :=
  ⟨v.ruleId, v.severity, v.message, v.message, v.line, v.column, none, none,
    v.wcag, v.fix.head?, v.fix⟩

def startsWithJsxA11y (s : String) : Bool := startsWithCS "jsx-a11y/".data s.data

/-- The message-to-violation map of `analyzeFileWithESLint`: keep messages
whose `ruleId` is truthy and starts with `jsx-a11y/`, map severity 2 to
`error` and everything else to `warning`, and attach the static tables. -/
def eslintTransform (msgs : List LintMessage) : List HybridViolation :=
  msgs.filterMap fun m =>
    match m.ruleId with
    | some rid =>
      if rid ≠ "" && startsWithJsxA11y rid then
        some ⟨rid, if m.severity = 2 then "error" else "warning", m.message, m.message,
          m.line, m.column, m.endLine, m.endColumn, ruleToWCAG rid, some (fixDescES rid),
          fixSuggES rid⟩
      else none
    | none => none

/-- The third-party ESLint engine (`eslint.lintText` with the fixed linter
configuration), abstracted: it either produces the message list of the first
result or throws. -/
def EslintEngine : Type := String → String → Except String (List LintMessage)

/-- `analyzeFileWithESLint`: run the engine and transform its messages; any
thrown error is caught, logged, and turned into an empty list. -/
def analyzeFileWithESLint (engine : EslintEngine) (content filePath : String) :
    List HybridViolation :=
  match engine content filePath with
  | .ok msgs => eslintTransform msgs
  | .error _ => []

/-! ## Classification -/

/-- `path.extname(filePath)`: the suffix of the basename from its last dot,
empty when the basename has no dot or only a leading one. -/
def jsExtname (path : String) : String :=
  let base := ((path.data.reverse).takeWhile (fun c => c ≠ '/')).reverse
  let rb := base.reverse
  match rb.findIdx? (fun c => c = '.') with
  | some j => if j + 1 < base.length then String.mk ((rb.take (j + 1)).reverse) else ""
  | none => ""

def lcString (s : String) : String := String.mk (lcList s.data)

/-- `['"]react['"]` (case-insensitively) at the head. -/
def reactQuoteOk (t : List Char) : Bool :=
  match t with
  | q :: r =>
    isQuote q && startsWithCI "react".data r &&
    (match r.drop 5 with
     | q2 :: _ => isQuote q2
     | [] => false)
  | [] => false

/-- `from\s+['"]react['"]` (case-insensitively) at the head. -/
def fromTailOk (t : List Char) : Bool :=
  startsWithCI "from".data t &&
  (let r := t.drop 4
   let w := (r.takeWhile (fun c => isJsWS c)).length
   1 ≤ w && reactQuoteOk (r.drop w))

/-- Can the gap between `import` and `from` be split as `\s+.*\s+`?
Equivalently: it starts and ends with whitespace, has length at least two,
and the region strictly between its maximal whitespace prefix and suffix
contains no line terminator (the `.*` piece cannot cross one, while the
`\s+` pieces may). -/
def gapOk (g : List Char) : Bool :=
  let w := (g.takeWhile (fun c => isJsWS c)).length
  let sLen := (g.reverse.takeWhile (fun c => isJsWS c)).length
  1 ≤ w && 1 ≤ sLen && 2 ≤ g.length &&
  ((g.drop w).take (g.length - w - sLen)).all (fun c => isDotChar c)

/-- Walk the characters after `import`, testing every split point for
`from\s+['"]react['"]` preceded by an admissible gap. -/
def importGapScan : List Char → List Char → Bool
  | [], _ => false
  | c :: r, gapRev =>
    (fromTailOk (c :: r) && gapOk gapRev.reverse) || importGapScan r (c :: gapRev)

/-- `/import\s+.*\s+from\s+['"]react['"]/i.test(content)`. -/
def hasReactImport (content : String) : Bool :=
  existsTail (fun t => startsWithCI "import".data t && importGapScan (t.drop 6) []) content.data

/-- `return\s*\(?\s*<[A-Z]` (case-sensitive) at the head; all the optional
pieces draw from pairwise disjoint character sets, so greedy consumption is
exact. -/
def returnJsxAt (t : List Char) : Bool :=
  startsWithCS "return".data t &&
  (let r := t.drop 6
   let w1 := (r.takeWhile (fun c => isJsWS c)).length
   let r1 := r.drop w1
   let r2 :=
     match r1 with
     | '(' :: rr => rr
     | _ => r1
   let w2 := (r2.takeWhile (fun c => isJsWS c)).length
   match r2.drop w2 with
   | '<' :: u :: _ => 'A' ≤ u && u ≤ 'Z'
   | _ => false)

/-- `=>\s*<[A-Z]` (case-sensitive) at the head. -/
def arrowJsxAt (t : List Char) : Bool :=
  startsWithCS "=>".data t &&
  (let r := t.drop 2
   let w := (r.takeWhile (fun c => isJsWS c)).length
   match r.drop w with
   | '<' :: u :: _ => 'A' ≤ u && u ≤ 'Z'
   | _ => false)

/-- `/return\s*\(?\s*<[A-Z]/.test(content) || /=>\s*<[A-Z]/.test(content)`. -/
def hasJSXElement (content : String) : Bool :=
  existsTail returnJsxAt content.data || existsTail arrowJsxAt content.data

/-- The analyzer selected by the `if`/`else if` chain of
`analyzeFileHybrid`, in source order.  The final `else` branch (commented
".jsx, .tsx files" in the source) is the catch-all: every extension that is
not `.html`/`.htm`/`.css`/`.scss`/`.js`/`.ts` reaches it. -/
inductive HybridRoute where
  | htmlBranch
  | cssBranch
  | jsAstBranch
  | eslintBranch
deriving DecidableEq

def route (filePath content : String) : HybridRoute :=
  let ext := lcString (jsExtname filePath)
  if ext = ".html" ∨ ext = ".htm" then .htmlBranch
  else if ext = ".css" ∨ ext = ".scss" then .cssBranch
  else if ext = ".js" ∨ ext = ".ts" then
    if hasReactImport content || hasJSXElement content then .eslintBranch else .jsAstBranch
  else .eslintBranch

/-- The dispatcher `analyzeFileHybrid`.  External collaborators are
parameters: `parse` is the htmlparser2 parse used inside `analyzeHTML`, and
`cssA`/`jsA` are `analyzeCSS`/`analyzeJS`.

Modelled from the spec: `css-analyzer.js` and `js-analyzer.js` are not under
`src/`; per the spec (sections 4.4, 4.5 and the error-handling taxonomy) each
evaluator recovers parse failures locally and returns a violation list, so
both enter as total functions from `(content, filePath)` to violation
lists. -/
def analyzeFileHybrid (parse : String → Except String (List DNode))
    (cssA jsA : String → String → List Violation) (engine : EslintEngine)
    (content filePath : String) : List HybridViolation :=
  match route filePath content with
  | .htmlBranch => (analyzeHTML content (parse content)).map transformViolation
  | .cssBranch => (cssA content filePath).map transformViolation
  | .jsAstBranch => (jsA content filePath).map transformViolation
  | .eslintBranch => analyzeFileWithESLint engine content filePath

/-! ## The MCP server handlers -/

/-- `fileType` classification of `handleCheckAccessibility`. -/
def fileTypeOf (ext : String) : String :=
  if ext = ".jsx" then "jsx"
  else if ext = ".tsx" then "tsx"
  else if ext = ".js" then "js"
  else if ext = ".ts" then "ts"
  else if ext = ".html" ∨ ext = ".htm" then "html"
  else if ext = ".css" then "css"
  else if ext = ".scss" then "scss"
  else "unknown"

structure SingleSummary where
  totalViolations : Nat
  errors : Nat
  warnings : Nat
  wcagCriteria : List String
deriving DecidableEq

structure SingleResult where
  filePath : String
  fileType : String
  violations : List HybridViolation
  summary : SingleSummary
deriving DecidableEq

def countSeverity (s : String) (vs : List HybridViolation) : Nat :=
  (vs.filter (fun v => v.severity = s)).length

/-- `handleCheckAccessibility` with the content supplied by the caller (the
branch that reads the file from disk when `content` is absent is I/O and
stays outside the embedding).  The whole analysis is funnelled through the
abstract `analyze` function so that the handler is exactly the code around
the `analyzeFileHybrid` call. -/
def checkAccessibilitySingle (analyze : String → String → List HybridViolation)
    (filePath content : String) : SingleResult :=
  let violations := analyze content filePath
  ⟨filePath, fileTypeOf (lcString (jsExtname filePath)), violations,
    ⟨violations.length, countSeverity "error" violations, countSeverity "warning" violations,
      jsSetDedup (violations.flatMap (fun v => v.wcag))⟩⟩

structure FileSummary where
  totalViolations : Nat
  errors : Nat
  warnings : Nat
deriving DecidableEq

structure BatchFile where
  path : String
  content : String

structure BatchEntry where
  filePath : String
  violations : List HybridViolation
  summary : Option FileSummary
  error : Option String
deriving DecidableEq

structure OverallSummary where
  filesChecked : Nat
  filesWithViolations : Nat
  totalViolations : Nat
  totalErrors : Nat
  totalWarnings : Nat
deriving DecidableEq

/-- One iteration of the `handleCheckAccessibilityBatch` loop: a successful
analysis yields a result with a per-file summary; a thrown error is caught
and yields an entry carrying the error message and an empty violation
list (and no summary). -/
def batchEntry (analyze : String → String → Except String (List HybridViolation))
    (f : BatchFile) : BatchEntry :=
  match analyze f.content f.path with
  | .ok vs =>
    ⟨f.path, vs, some ⟨vs.length, countSeverity "error" vs, countSeverity "warning" vs⟩, none⟩
  | .error e => ⟨f.path, [], none, some e⟩

def batchResults (analyze : String → String → Except String (List HybridViolation))
    (files : List BatchFile) : List BatchEntry :=
  files.map (batchEntry analyze)

/-- The aggregate `overallSummary` of `handleCheckAccessibilityBatch`:
`filesChecked` is the input length, `filesWithViolations` counts entries with
a non-empty violation list, and the three totals sum the per-entry summaries
(`r.summary?.field || 0`, so error entries contribute zero). -/
def batchOverallSummary (analyze : String → String → Except String (List HybridViolation))
    (files : List BatchFile) : OverallSummary :=
  let rs := batchResults analyze files
  ⟨files.length,
    (rs.filter (fun r => !r.violations.isEmpty)).length,
    (rs.map (fun r => match r.summary with | some s => s.totalViolations | none => 0)).sum,
    (rs.map (fun r => match r.summary with | some s => s.errors | none => 0)).sum,
    (rs.map (fun r => match r.summary with | some s => s.warnings | none => 0)).sum⟩

/-! ## Spec-modelled pre-pass and claim-side definitions -/

/-- Modelled from the spec: the Fast Pre-Pass Evaluator (`regex-analyzer.js`)
is code of this repository that is not under `src/`.  The spec (section 4.2)
lists among its checks "missing top-level heading / skipped heading level
(by scanning all heading-tag occurrences in document order)", and the
repository documentation names the corresponding rule id `missing-h1`.
Only that one check is modelled: a document with no `<h1` occurrence yields
one finding.  The claims below rely solely on the pre-pass output being
non-empty on such documents; the full pre-pass output is a superset of this
model's output. -/
def prePassModel (content : String) : List Violation :=
  if existsTail (fun t => startsWithCI "<h1".data t) content.data then []
  else [⟨"missing-h1", "error", "Missing top-level heading (h1)", 1, 1, [], []⟩]

mutual

/-- Claim-side helper: all `for` attribute values of `label` elements in the
tree. -/
def labelForsOfNode : DNode → List String
  | .text _ => []
  | .tag name attrs children =>
    (if name = "label" then
      match getAttr attrs "for" with
      | some v => [v]
      | none => []
    else []) ++ labelForsOfList children

def labelForsOfList : List DNode → List String
  | [] => []
  | n :: r => labelForsOfNode n ++ labelForsOfList r

end

/-- Claim-side definition, following the claim's words: an input has a
resolvable label when it carries a (truthy) `aria-label` or
`aria-labelledby`, or when its `id` is referenced by some `label[for]` in the
document. -/
def specResolvableLabel (dom : List DNode) (attrs : List (String × String)) : Bool :=
  truthyAttr attrs "aria-label" || truthyAttr attrs "aria-labelledby" ||
  (match getAttr attrs "id" with
   | some id => id ∈ labelForsOfList dom
   | none => false)

/-- Claim-side line of a character index: one plus the number of newline
characters before it. -/
def lineOfIndex (cs : List Char) (i : Nat) : Nat :=
  1 + ((cs.take i).filter (fun c => c = '\n')).length

/-- All (possibly overlapping) occurrence indices of a pattern. -/
def occurrenceIdxs (pat : List Char) : List Char → Nat → List Nat
  | [], _ => []
  | c :: r, i =>
    (if startsWithCS pat (c :: r) then [i] else []) ++ occurrenceIdxs pat r (i + 1)

/-- Claim-side line of the n-th occurrence (0-based) of a pattern. -/
def lineOfOccurrence (cs pat : List Char) (n : Nat) : Option Nat :=
  ((occurrenceIdxs pat cs 0).get? n).map (lineOfIndex cs)

/-- Claim-side aggregate: the distinct standard-criterion references
triggered across all files of a batch, in first-trigger order. -/
def distinctWcagOfResults (rs : List BatchEntry) : List String :=
  jsSetDedup (rs.flatMap (fun r => r.violations.flatMap (fun v => v.wcag)))

/-- Number of violations with a given rule id. -/
def countRule (r : String) (vs : List Violation) : Nat :=
  (vs.filter (fun v => v.ruleId = r)).length

mutual

/-- The inputs of the tree that the label check fires on: `input` elements
whose `type` is not `hidden`/`submit`/`button` and that carry no truthy
`aria-label`, `aria-labelledby` or `id`, counted in document order. -/
def unlabeledCountN : DNode → Nat
  | .text _ => 0
  | .tag name attrs children =>
    (if checkableInput name attrs && !inputHasLabel attrs then 1 else 0) +
      unlabeledCountL children

def unlabeledCountL : List DNode → Nat
  | [] => 0
  | n :: r => unlabeledCountN n + unlabeledCountL r

end

/-- Number of heading-level jumps greater than one between consecutive
collected headings. -/
def jumpCount : List Int → Nat
  | a :: b :: t => (if b > a + 1 then 1 else 0) + jumpCount (b :: t)
  | _ => 0

/-! ## Concrete inputs for the claims

Each `domN` value is the tree htmlparser2 (with `lowerCaseTags: true`)
produces for the corresponding content, inter-element whitespace text nodes
included. -/

def cssNil : String → String → List Violation := fun _ _ => []
def jsNil : String → String → List Violation := fun _ _ => []
def engineNil : EslintEngine := fun _ _ => .ok []
def parseNil : String → Except String (List DNode) := fun _ => .ok []

/-- A markup document with no violation findable by `analyzeHTML` and no
top-level heading. -/
def c1Content : String :=
  "<html lang=\"en\"><head><title>Home</title></head><body><main><p>Hi</p></main></body></html>"

def dom1 : List DNode :=
  [.tag "html" [("lang", "en")]
    [.tag "head" [] [.tag "title" [] [.text "Home"]],
     .tag "body" [] [.tag "main" [] [.tag "p" [] [.text "Hi"]]]]]

def parse1 : String → Except String (List DNode) := fun _ => .ok dom1

/-- Script content with no top-level heading, routed (by extension) to the
ESLint branch. -/
def c2Content : String := "let y = 2"

def engineFail : EslintEngine := fun _ _ => .error "Parsing error"

/-- An ESLint engine producing one jsx-a11y finding, as `lintText` does on
JSX content regardless of the extension of the supplied `filePath` (it lints
the given text; extension-based filtering applies only to file discovery). -/
def engineOneFinding : EslintEngine := fun _ _ =>
  .ok [⟨some "jsx-a11y/alt-text", 2,
    "img elements must have an alt prop, either with meaningful text, or an empty string for decorative images.",
    1, 25, some 1, some 44⟩]

def c3Content : String := "export const A = () => <img src=\"x.png\" />"

/-- A radio group that IS wrapped in a fieldset with a legend. -/
def c4Content : String :=
  "<fieldset><legend>Pick</legend><input type=\"radio\" name=\"g\"><input type=\"radio\" name=\"g\"></fieldset>"

def dom4 : List DNode :=
  [.tag "fieldset" []
    [.tag "legend" [] [.text "Pick"],
     .tag "input" [("type", "radio"), ("name", "g")] [],
     .tag "input" [("type", "radio"), ("name", "g")] []]]

/-- An input carrying an `id` with no matching `label[for]` anywhere. -/
def c5Content : String := "<input type=\"text\" id=\"x\">"

def attrs5 : List (String × String) := [("type", "text"), ("id", "x")]

def dom5 : List DNode := [.tag "input" attrs5 []]

/-- Headings h1, h2, h4 in document order, followed by one more positioned
element on a later line. -/
def c7Content : String := "<h1>A</h1>\n<h2>B</h2>\n<h4>C</h4>\n\n<div>x</div>"

def dom7 : List DNode :=
  [.tag "h1" [] [.text "A"], .text "\n",
   .tag "h2" [] [.text "B"], .text "\n",
   .tag "h4" [] [.text "C"], .text "\n\n",
   .tag "div" [] [.text "x"]]

def parse7 : String → Except String (List DNode) := fun _ => .ok dom7

/-- Two elements sharing `id="x"`, followed by one more positioned element on
a later line. -/
def c8Content : String := "<p id=\"x\">a</p>\n<p id=\"x\">b</p>\n <b>c</b>"

def dom8 : List DNode :=
  [.tag "p" [("id", "x")] [.text "a"], .text "\n",
   .tag "p" [("id", "x")] [.text "b"], .text "\n ",
   .tag "b" [] [.text "c"]]

/-- Batch analyzers differing only in the WCAG references of their one
finding. -/
def hv6a : HybridViolation :=
  ⟨"img-missing-alt", "error", "m", "m", 1, 1, none, none, ["1.1.1"], none, []⟩

def hv6b : HybridViolation :=
  ⟨"iframe-missing-title", "error", "m", "m", 1, 1, none, none, ["4.1.2"], none, []⟩

def analyze6a : String → String → Except String (List HybridViolation) := fun _ _ => .ok [hv6a]

def analyze6b : String → String → Except String (List HybridViolation) := fun _ _ => .ok [hv6b]

def files6 : List BatchFile := [⟨"a.html", "x"⟩]

def sevOKV (v : Violation) : Prop := v.severity = "error" ∨ v.severity = "warning"

def sevOKH (v : HybridViolation) : Prop := v.severity = "error" ∨ v.severity = "warning"

/-- Rule ids the traversal phase can emit. -/
def nodeRuleIds : List String :=
  ["img-missing-alt", "img-redundant-alt", "form-input-missing-label", "placeholder-as-label",
   "missing-autocomplete", "required-not-indicated", "button-empty", "link-empty",
   "link-non-descriptive", "link-new-window-no-warning", "iframe-missing-title",
   "div-as-button", "positive-tabindex", "heading-empty", "table-missing-headers",
   "autoplay-media", "media-no-captions", "redundant-role", "invalid-aria-role",
   "missing-aria-required"]

def parse4 : String → Except String (List DNode) := fun _ => .ok dom4

/-- Boolean form of the severity-vocabulary invariant on dispatcher
output. -/
def sevAllOKH (vs : List HybridViolation) : Bool :=
  vs.all (fun v => v.severity == "error" || v.severity == "warning")

/-! ## Helper lemmas -/

@[simp] theorem pushV_ruleId (rid sev msg : String) (ln : Int) :
    (pushV rid sev msg ln).ruleId = rid := rfl

@[simp] theorem pushV_severity (rid sev msg : String) (ln : Int) :
    (pushV rid sev msg ln).severity = sev := rfl

@[simp] theorem mem_emitIf_iff {v w : Violation} {b : Bool} :
    v ∈ emitIf b w ↔ b = true ∧ v = w := by
  cases b <;> simp [emitIf]

theorem countRule_append (r : String) (a b : List Violation) :
    countRule r (a ++ b) = countRule r a + countRule r b := by
  simp [countRule, List.filter_append]

@[simp] theorem countRule_nil (r : String) : countRule r [] = 0 := rfl

theorem countRule_eq_zero (r : String) (vs : List Violation)
    (h : ∀ v ∈ vs, v.ruleId ≠ r) : countRule r vs = 0 := by
  simp only [countRule, List.length_eq_zero]
  exact List.filter_eq_nil_iff.mpr (by simpa using h)

theorem countRule_emitIf_self (r : String) (b : Bool) (w : Violation) (hw : w.ruleId = r) :
    countRule r (emitIf b w) = if b then 1 else 0 := by
  cases b <;> simp [emitIf, countRule, hw]

theorem countRule_emitIf_ne (r : String) (b : Bool) (w : Violation) (hw : w.ruleId ≠ r) :
    countRule r (emitIf b w) = 0 := by
  cases b <;> simp [emitIf, countRule, hw]

theorem imgChecks_mem (n : String) (a : List (String × String)) (ln : Int) :
    ∀ v ∈ imgChecks n a ln,
      v.ruleId ∈ ["img-missing-alt", "img-redundant-alt"] ∧ sevOKV v := by
  intro v hv
  unfold imgChecks at hv
  repeat' split at hv
  all_goals simp_all [sevOKV]

theorem inputChecks_mem (n : String) (a : List (String × String)) (ln : Int) :
    ∀ v ∈ inputChecks n a ln,
      v.ruleId ∈ ["form-input-missing-label", "placeholder-as-label", "missing-autocomplete",
        "required-not-indicated"] ∧ sevOKV v := by
  intro v hv
  unfold inputChecks at hv
  split at hv
  · simp only [List.mem_append, mem_emitIf_iff] at hv
    obtain ((⟨-, h⟩ | ⟨-, h⟩) | ⟨-, h⟩) | ⟨-, h⟩ := hv <;> subst h <;>
      simp [sevOKV, pushV]
  · simp at hv

theorem buttonCheck_mem (n : String) (a : List (String × String)) (c : List DNode) (ln : Int) :
    ∀ v ∈ buttonCheck n a c ln, v.ruleId ∈ ["button-empty"] ∧ sevOKV v := by
  intro v hv
  unfold buttonCheck at hv
  simp_all [sevOKV]

theorem mem_ite_nil {p : Prop} [Decidable p] {l : List Violation} {v : Violation} :
    v ∈ (if p then l else []) ↔ p ∧ v ∈ l := by
  split <;> simp_all

theorem linkChecks_mem (n : String) (a : List (String × String)) (c : List DNode) (ln : Int) :
    ∀ v ∈ linkChecks n a c ln,
      v.ruleId ∈ ["link-empty", "link-non-descriptive", "link-new-window-no-warning"] ∧
        sevOKV v := by
  intro v hv
  unfold linkChecks at hv
  split at hv
  · simp only [List.mem_append, mem_emitIf_iff, mem_ite_nil] at hv
    obtain (⟨-, h⟩ | ⟨-, -, h⟩) | ⟨-, -, h⟩ := hv <;> subst h <;> simp [sevOKV, pushV]
  · simp at hv

theorem iframeCheck_mem (n : String) (a : List (String × String)) (ln : Int) :
    ∀ v ∈ iframeCheck n a ln, v.ruleId ∈ ["iframe-missing-title"] ∧ sevOKV v := by
  intro v hv
  unfold iframeCheck at hv
  simp_all [sevOKV]

theorem divSpanCheck_mem (n : String) (a : List (String × String)) (ln : Int) :
    ∀ v ∈ divSpanCheck n a ln, v.ruleId ∈ ["div-as-button"] ∧ sevOKV v := by
  intro v hv
  unfold divSpanCheck at hv
  repeat' split at hv
  all_goals simp_all [sevOKV]

theorem tabindexCheck_mem (a : List (String × String)) (ln : Int) :
    ∀ v ∈ tabindexCheck a ln, v.ruleId ∈ ["positive-tabindex"] ∧ sevOKV v := by
  intro v hv
  unfold tabindexCheck at hv
  repeat' split at hv
  all_goals simp_all [sevOKV]

theorem headingCheck_mem (n : String) (a : List (String × String)) (c : List DNode) (ln : Int) :
    ∀ v ∈ headingCheck n a c ln, v.ruleId ∈ ["heading-empty"] ∧ sevOKV v := by
  intro v hv
  unfold headingCheck at hv
  simp_all [sevOKV]

theorem tableCheck_mem (n : String) (c : List DNode) (ln : Int) :
    ∀ v ∈ tableCheck n c ln, v.ruleId ∈ ["table-missing-headers"] ∧ sevOKV v := by
  intro v hv
  unfold tableCheck at hv
  simp_all [sevOKV]

theorem autoplayCheck_mem (n : String) (a : List (String × String)) (ln : Int) :
    ∀ v ∈ autoplayCheck n a ln, v.ruleId ∈ ["autoplay-media"] ∧ sevOKV v := by
  intro v hv
  unfold autoplayCheck at hv
  simp_all [sevOKV]

theorem captionsCheck_mem (n : String) (c : List DNode) (ln : Int) :
    ∀ v ∈ captionsCheck n c ln, v.ruleId ∈ ["media-no-captions"] ∧ sevOKV v := by
  intro v hv
  unfold captionsCheck at hv
  repeat' split at hv
  all_goals simp_all [sevOKV]

theorem roleChecks_mem (n : String) (a : List (String × String)) (ln : Int) :
    ∀ v ∈ roleChecks n a ln,
      v.ruleId ∈ ["redundant-role", "invalid-aria-role", "missing-aria-required"] ∧
        sevOKV v := by
  intro v hv
  unfold roleChecks at hv
  split at hv
  case h_2 => simp at hv
  case h_1 role heq =>
    split at hv
    · simp at hv
    · simp only [List.mem_append, mem_emitIf_iff] at hv
      obtain (⟨-, h⟩ | ⟨-, h⟩) | h := hv
      · subst h; simp [sevOKV, pushV]
      · subst h; simp [sevOKV, pushV]
      · split at h
        · obtain ⟨prop, -, hm⟩ := List.mem_flatMap.mp h
          obtain ⟨-, h2⟩ := mem_emitIf_iff.mp hm
          subst h2; simp [sevOKV, pushV]
        · simp at h

theorem nodeChecks_mem (n : String) (a : List (String × String)) (c : List DNode) (ln : Int) :
    ∀ v ∈ nodeChecks n a c ln, v.ruleId ∈ nodeRuleIds ∧ sevOKV v := by
  intro v hv
  unfold nodeChecks at hv
  simp only [List.mem_append] at hv
  rcases hv with ((((((((((h | h) | h) | h) | h) | h) | h) | h) | h) | h) | h) | h
  · have hc := imgChecks_mem n a ln v h
    refine ⟨?_, hc.2⟩
    have h1 := hc.1
    simp only [List.mem_cons, List.not_mem_nil, or_false] at h1
    simp only [nodeRuleIds, List.mem_cons, List.not_mem_nil, or_false]
    tauto
  · have hc := inputChecks_mem n a ln v h
    refine ⟨?_, hc.2⟩
    have h1 := hc.1
    simp only [List.mem_cons, List.not_mem_nil, or_false] at h1
    simp only [nodeRuleIds, List.mem_cons, List.not_mem_nil, or_false]
    tauto
  · have hc := buttonCheck_mem n a c ln v h
    refine ⟨?_, hc.2⟩
    have h1 := hc.1
    simp only [List.mem_cons, List.not_mem_nil, or_false] at h1
    simp only [nodeRuleIds, List.mem_cons, List.not_mem_nil, or_false]
    tauto
  · have hc := linkChecks_mem n a c ln v h
    refine ⟨?_, hc.2⟩
    have h1 := hc.1
    simp only [List.mem_cons, List.not_mem_nil, or_false] at h1
    simp only [nodeRuleIds, List.mem_cons, List.not_mem_nil, or_false]
    tauto
  · have hc := iframeCheck_mem n a ln v h
    refine ⟨?_, hc.2⟩
    have h1 := hc.1
    simp only [List.mem_cons, List.not_mem_nil, or_false] at h1
    simp only [nodeRuleIds, List.mem_cons, List.not_mem_nil, or_false]
    tauto
  · have hc := divSpanCheck_mem n a ln v h
    refine ⟨?_, hc.2⟩
    have h1 := hc.1
    simp only [List.mem_cons, List.not_mem_nil, or_false] at h1
    simp only [nodeRuleIds, List.mem_cons, List.not_mem_nil, or_false]
    tauto
  · have hc := tabindexCheck_mem a ln v h
    refine ⟨?_, hc.2⟩
    have h1 := hc.1
    simp only [List.mem_cons, List.not_mem_nil, or_false] at h1
    simp only [nodeRuleIds, List.mem_cons, List.not_mem_nil, or_false]
    tauto
  · have hc := headingCheck_mem n a c ln v h
    refine ⟨?_, hc.2⟩
    have h1 := hc.1
    simp only [List.mem_cons, List.not_mem_nil, or_false] at h1
    simp only [nodeRuleIds, List.mem_cons, List.not_mem_nil, or_false]
    tauto
  · have hc := tableCheck_mem n c ln v h
    refine ⟨?_, hc.2⟩
    have h1 := hc.1
    simp only [List.mem_cons, List.not_mem_nil, or_false] at h1
    simp only [nodeRuleIds, List.mem_cons, List.not_mem_nil, or_false]
    tauto
  · have hc := autoplayCheck_mem n a ln v h
    refine ⟨?_, hc.2⟩
    have h1 := hc.1
    simp only [List.mem_cons, List.not_mem_nil, or_false] at h1
    simp only [nodeRuleIds, List.mem_cons, List.not_mem_nil, or_false]
    tauto
  · have hc := captionsCheck_mem n c ln v h
    refine ⟨?_, hc.2⟩
    have h1 := hc.1
    simp only [List.mem_cons, List.not_mem_nil, or_false] at h1
    simp only [nodeRuleIds, List.mem_cons, List.not_mem_nil, or_false]
    tauto
  · have hc := roleChecks_mem n a ln v h
    refine ⟨?_, hc.2⟩
    have h1 := hc.1
    simp only [List.mem_cons, List.not_mem_nil, or_false] at h1
    simp only [nodeRuleIds, List.mem_cons, List.not_mem_nil, or_false]
    tauto

theorem countRule_zero_of_sets (r : String) (vs : List Violation) (ids : List String)
    (hmem : ∀ v ∈ vs, v.ruleId ∈ ids ∧ sevOKV v) (hr : r ∉ ids) : countRule r vs = 0 :=
  countRule_eq_zero r vs (fun v hv e => hr (e ▸ (hmem v hv).1))

theorem countRule_emitIf (r : String) (b : Bool) (w : Violation) :
    countRule r (emitIf b w) = if b = true ∧ w.ruleId = r then 1 else 0 := by
  cases b <;> simp [emitIf, countRule, List.filter] <;> split <;> simp_all

theorem inputChecks_count_label (n : String) (a : List (String × String)) (ln : Int) :
    countRule "form-input-missing-label" (inputChecks n a ln) =
      if checkableInput n a && !inputHasLabel a then 1 else 0 := by
  unfold inputChecks
  split
  case isTrue h =>
    rw [countRule_append, countRule_append, countRule_append]
    simp [countRule_emitIf, pushV, h]
  case isFalse h =>
    simp only [Bool.not_eq_true] at h
    simp [countRule, h]

theorem nodeChecks_count_label (n : String) (a : List (String × String)) (c : List DNode)
    (ln : Int) :
    countRule "form-input-missing-label" (nodeChecks n a c ln) =
      if checkableInput n a && !inputHasLabel a then 1 else 0 := by
  unfold nodeChecks
  repeat rw [countRule_append]
  rw [countRule_zero_of_sets _ _ _ (imgChecks_mem n a ln) (by decide),
    inputChecks_count_label,
    countRule_zero_of_sets _ _ _ (buttonCheck_mem n a c ln) (by decide),
    countRule_zero_of_sets _ _ _ (linkChecks_mem n a c ln) (by decide),
    countRule_zero_of_sets _ _ _ (iframeCheck_mem n a ln) (by decide),
    countRule_zero_of_sets _ _ _ (divSpanCheck_mem n a ln) (by decide),
    countRule_zero_of_sets _ _ _ (tabindexCheck_mem a ln) (by decide),
    countRule_zero_of_sets _ _ _ (headingCheck_mem n a c ln) (by decide),
    countRule_zero_of_sets _ _ _ (tableCheck_mem n c ln) (by decide),
    countRule_zero_of_sets _ _ _ (autoplayCheck_mem n a ln) (by decide),
    countRule_zero_of_sets _ _ _ (captionsCheck_mem n c ln) (by decide),
    countRule_zero_of_sets _ _ _ (roleChecks_mem n a ln) (by decide)]
  omega

theorem trav_mem (cs : List Char) (lines : List (List Char)) :
    ∀ ns ln, ∀ v ∈ (travList cs lines ns ln).1, v.ruleId ∈ nodeRuleIds ∧ sevOKV v := by
  intro ns ln
  refine travList.induct cs lines
    (fun n ln => ∀ v ∈ (travNode cs lines n ln).1, v.ruleId ∈ nodeRuleIds ∧ sevOKV v)
    (fun ns ln => ∀ v ∈ (travList cs lines ns ln).1, v.ruleId ∈ nodeRuleIds ∧ sevOKV v)
    ?_ ?_ ?_ ?_ ns ln
  · intro d ln v hv
    simp [travNode] at hv
  · intro name attrs children ln ln2 ih v hv
    rw [show ln2 = updateLine cs lines name ln from rfl] at ih
    simp only [travNode] at hv
    rcases List.mem_append.mp hv with h | h
    · exact nodeChecks_mem name attrs children _ v h
    · exact ih v h
  · intro ln v hv
    simp [travList] at hv
  · intro n rest ln r1 ih1 ih2 v hv
    rw [show r1 = travNode cs lines n ln from rfl] at ih2
    simp only [travList] at hv
    rcases List.mem_append.mp hv with h | h
    · exact ih1 v h
    · exact ih2 v h

theorem trav_count_zero (cs : List Char) (lines : List (List Char)) (r : String)
    (hr : r ∉ nodeRuleIds) (ns : List DNode) (ln : Int) :
    countRule r (travList cs lines ns ln).1 = 0 :=
  countRule_zero_of_sets r _ nodeRuleIds (trav_mem cs lines ns ln) hr

theorem trav_count_label (cs : List Char) (lines : List (List Char)) :
    ∀ ns ln,
      countRule "form-input-missing-label" (travList cs lines ns ln).1 = unlabeledCountL ns := by
  intro ns ln
  refine travList.induct cs lines
    (fun n ln => countRule "form-input-missing-label" (travNode cs lines n ln).1 =
      unlabeledCountN n)
    (fun ns ln => countRule "form-input-missing-label" (travList cs lines ns ln).1 =
      unlabeledCountL ns)
    ?_ ?_ ?_ ?_ ns ln
  · intro d ln
    simp [travNode, unlabeledCountN, countRule]
  · intro name attrs children ln ln2 ih
    rw [show ln2 = updateLine cs lines name ln from rfl] at ih
    simp only [travNode, unlabeledCountN]
    rw [countRule_append, nodeChecks_count_label, ih]
  · intro ln
    simp [travList, unlabeledCountL, countRule]
  · intro n rest ln r1 ih1 ih2
    rw [show r1 = travNode cs lines n ln from rfl] at ih2
    simp only [travList, unlabeledCountL]
    rw [countRule_append, ih1, ih2]

theorem preParseChecks_mem (cs : List Char) (lines : List (List Char)) :
    ∀ v ∈ preParseChecks cs lines,
      v.ruleId ∈ ["missing-lang", "title-empty", "missing-main-landmark", "marquee-element"] ∧
        sevOKV v := by
  intro v hv
  unfold preParseChecks at hv
  simp only [List.mem_append, mem_emitIf_iff] at hv
  rcases hv with ((h | h) | h) | h
  · obtain ⟨-, h⟩ := h
    subst h; simp [sevOKV, pushV]
  · split at h
    all_goals try (split at h)
    all_goals simp_all [sevOKV]
  · obtain ⟨-, h⟩ := h
    subst h; simp [sevOKV, pushV]
  · obtain ⟨p, -, h⟩ := List.mem_map.mp h
    subst h; simp [sevOKV, pushV]

theorem dupIdFold_mem (ln : Int) :
    ∀ l seen, ∀ v ∈ dupIdFold ln l seen, v.ruleId = "duplicate-id" ∧ sevOKV v := by
  intro l
  induction l with
  | nil => intro seen v hv; simp [dupIdFold] at hv
  | cons x r ih =>
    intro seen v hv
    unfold dupIdFold at hv
    split at hv
    · rcases List.mem_cons.mp hv with h | h
      · subst h; simp [sevOKV, pushV]
      · exact ih _ v h
    · exact ih _ v hv

theorem jsSetDedupAux_length_le : ∀ l seen, (jsSetDedupAux l seen).length ≤ l.length := by
  intro l
  induction l with
  | nil => intro seen; simp [jsSetDedupAux]
  | cons x r ih =>
    intro seen
    unfold jsSetDedupAux
    split
    · exact le_trans (ih seen) (Nat.le_succ _)
    · simpa using Nat.succ_le_succ (ih (x :: seen))

theorem dupIdFold_count (ln : Int) :
    ∀ l seen, countRule "duplicate-id" (dupIdFold ln l seen) =
      l.length - (jsSetDedupAux l seen).length := by
  intro l
  induction l with
  | nil => intro seen; simp [dupIdFold, jsSetDedupAux]
  | cons x r ih =>
    intro seen
    unfold dupIdFold jsSetDedupAux
    split
    · have hle := jsSetDedupAux_length_le r seen
      simp only [countRule, List.filter, pushV]
      have : countRule "duplicate-id" (dupIdFold ln r seen) =
          r.length - (jsSetDedupAux r seen).length := ih seen
      simp only [countRule] at this
      simp [this]
      omega
    · have hle := jsSetDedupAux_length_le r (x :: seen)
      have := ih (x :: seen)
      simp only [List.length_cons]
      rw [this]
      omega

theorem headingHier_mem (ln : Int) :
    ∀ ls, ∀ v ∈ headingHierViolations ln ls,
      v.ruleId = "heading-hierarchy" ∧ sevOKV v := by
  intro ls
  induction ls with
  | nil => intro v hv; simp [headingHierViolations] at hv
  | cons a t ih =>
    intro v hv
    match t, hv with
    | [], hv => simp [headingHierViolations] at hv
    | b :: t2, hv =>
      unfold headingHierViolations at hv
      rcases List.mem_append.mp hv with h | h
      · obtain ⟨-, h⟩ := mem_emitIf_iff.mp h
        subst h; simp [sevOKV, pushV]
      · exact ih v h

theorem headingHier_count (ln : Int) :
    ∀ ls, countRule "heading-hierarchy" (headingHierViolations ln ls) = jumpCount ls := by
  intro ls
  induction ls with
  | nil => simp [headingHierViolations, jumpCount]
  | cons a t ih =>
    match t with
    | [] => simp [headingHierViolations, jumpCount, countRule]
    | b :: t2 =>
      unfold headingHierViolations jumpCount
      rw [countRule_append, countRule_emitIf, ih]
      simp [pushV]

theorem radioViolations_mem (cs : List Char) (dom : List DNode) (ln : Int) :
    ∀ v ∈ radioViolations cs dom ln, v.ruleId = "radio-missing-fieldset" ∧ sevOKV v := by
  intro v hv
  unfold radioViolations at hv
  obtain ⟨p, -, h⟩ := List.mem_filterMap.mp hv
  split at h
  · split at h
    · simp only [Option.some_inj] at h
      subst h; simp [sevOKV, pushV]
    · simp at h
  · simp at h

theorem navViolations_mem (cs : List Char) (lines : List (List Char)) :
    ∀ v ∈ navViolations cs lines, v.ruleId = "non-semantic-navigation" ∧ sevOKV v := by
  intro v hv
  unfold navViolations at hv
  split at hv
  · split at hv
    · simp at hv
    · rcases List.mem_singleton.mp hv with h
      subst h; simp [sevOKV, pushV]
  · simp at hv

theorem outlineViolations_mem (cs : List Char) (lines : List (List Char)) :
    ∀ v ∈ outlineViolations cs lines, v.ruleId = "focus-outline-removed" ∧ sevOKV v := by
  intro v hv
  unfold outlineViolations at hv
  obtain ⟨i, -, h⟩ := List.mem_map.mp hv
  subst h; simp [sevOKV, pushV]

theorem countRule_zero_of_const (r x : String) (vs : List Violation)
    (hmem : ∀ v ∈ vs, v.ruleId = x ∧ sevOKV v) (hr : x ≠ r) : countRule r vs = 0 :=
  countRule_eq_zero r vs (fun v hv e => hr (by rw [← (hmem v hv).1, e]))

theorem analyzeHTML_sev (content : String) (parsed : Except String (List DNode)) :
    ∀ v ∈ analyzeHTML content parsed, sevOKV v := by
  intro v hv
  cases parsed with
  | error e =>
    simp only [analyzeHTML] at hv
    rcases List.mem_append.mp hv with h | h
    · rcases List.mem_append.mp h with h | h
      · exact (preParseChecks_mem _ _ v h).2
      · simp at h
    · exact (outlineViolations_mem _ _ v h).2
  | ok dom =>
    simp only [analyzeHTML] at hv
    rcases List.mem_append.mp hv with h | h
    · rcases List.mem_append.mp h with h | h
      · exact (preParseChecks_mem _ _ v h).2
      · rcases List.mem_append.mp h with h | h
        · rcases List.mem_append.mp h with h | h
          · rcases List.mem_append.mp h with h | h
            · rcases List.mem_append.mp h with h | h
              · exact (trav_mem _ _ _ _ v h).2
              · exact (dupIdFold_mem _ _ _ v h).2
            · exact (headingHier_mem _ _ v h).2
          · exact (radioViolations_mem _ _ _ v h).2
        · exact (navViolations_mem _ _ v h).2
    · exact (outlineViolations_mem _ _ v h).2

theorem analyzeHTML_count_hh (content : String) (dom : List DNode) :
    countRule "heading-hierarchy" (analyzeHTML content (.ok dom)) =
      jumpCount (headingsOfList dom) := by
  simp only [analyzeHTML, dupIdViolations]
  repeat rw [countRule_append]
  rw [countRule_zero_of_sets _ _ _ (preParseChecks_mem _ _) (by decide),
    trav_count_zero _ _ _ (by decide),
    countRule_zero_of_const _ _ _ (dupIdFold_mem _ _ _) (by decide),
    headingHier_count,
    countRule_zero_of_const _ _ _ (radioViolations_mem _ _ _) (by decide),
    countRule_zero_of_const _ _ _ (navViolations_mem _ _) (by decide),
    countRule_zero_of_const _ _ _ (outlineViolations_mem _ _) (by decide)]
  omega

theorem analyzeHTML_count_dup (content : String) (dom : List DNode) :
    countRule "duplicate-id" (analyzeHTML content (.ok dom)) =
      (idsOfList dom).length - (jsSetDedup (idsOfList dom)).length := by
  simp only [analyzeHTML, dupIdViolations]
  repeat rw [countRule_append]
  rw [countRule_zero_of_sets _ _ _ (preParseChecks_mem _ _) (by decide),
    trav_count_zero _ _ _ (by decide),
    dupIdFold_count,
    countRule_zero_of_const _ _ _ (headingHier_mem _ _) (by decide),
    countRule_zero_of_const _ _ _ (radioViolations_mem _ _ _) (by decide),
    countRule_zero_of_const _ _ _ (navViolations_mem _ _) (by decide),
    countRule_zero_of_const _ _ _ (outlineViolations_mem _ _) (by decide)]
  simp [jsSetDedup]

theorem analyzeHTML_count_label (content : String) (dom : List DNode) :
    countRule "form-input-missing-label" (analyzeHTML content (.ok dom)) =
      unlabeledCountL dom := by
  simp only [analyzeHTML, dupIdViolations]
  repeat rw [countRule_append]
  rw [countRule_zero_of_sets _ _ _ (preParseChecks_mem _ _) (by decide),
    trav_count_label,
    countRule_zero_of_const _ _ _ (dupIdFold_mem _ _ _) (by decide),
    countRule_zero_of_const _ _ _ (headingHier_mem _ _) (by decide),
    countRule_zero_of_const _ _ _ (radioViolations_mem _ _ _) (by decide),
    countRule_zero_of_const _ _ _ (navViolations_mem _ _) (by decide),
    countRule_zero_of_const _ _ _ (outlineViolations_mem _ _) (by decide)]
  omega

theorem eslintTransform_sev (msgs : List LintMessage) :
    ∀ v ∈ eslintTransform msgs, sevOKH v := by
  intro v hv
  unfold eslintTransform at hv
  obtain ⟨m, -, h⟩ := List.mem_filterMap.mp hv
  split at h
  · split at h
    · simp only [Option.some_inj] at h
      subst h
      by_cases h2 : m.severity = 2 <;> simp [sevOKH, h2]
    · simp at h
  · simp at h

theorem transformViolation_severity (v : Violation) :
    (transformViolation v).severity = v.severity := rfl

theorem batchEntry_fields
    (analyze : String → String → Except String (List HybridViolation)) (f : BatchFile) :
    (match (batchEntry analyze f).summary with
      | some s => s.totalViolations
      | none => 0) = (batchEntry analyze f).violations.length ∧
    (match (batchEntry analyze f).summary with
      | some s => s.errors
      | none => 0) = countSeverity "error" (batchEntry analyze f).violations ∧
    (match (batchEntry analyze f).summary with
      | some s => s.warnings
      | none => 0) = countSeverity "warning" (batchEntry analyze f).violations := by
  unfold batchEntry
  cases analyze f.content f.path <;> simp [countSeverity]

/-- The sums of the batch summary against the per-entry violation lists. -/
theorem batch_sums
    (analyze : String → String → Except String (List HybridViolation))
    (files : List BatchFile) :
    (batchOverallSummary analyze files).totalViolations =
      ((batchResults analyze files).map (fun r => r.violations.length)).sum ∧
    (batchOverallSummary analyze files).totalErrors =
      ((batchResults analyze files).map (fun r => countSeverity "error" r.violations)).sum ∧
    (batchOverallSummary analyze files).totalWarnings =
      ((batchResults analyze files).map (fun r => countSeverity "warning" r.violations)).sum := by
  unfold batchOverallSummary
  refine ⟨?_, ?_, ?_⟩ <;>
  · simp only [batchResults, List.map_map]
    congr 1
    refine List.map_congr_left (fun f _ => ?_)
    have h := batchEntry_fields analyze f
    simp only [Function.comp]
    first
    | exact h.1
    | exact h.2.1
    | exact h.2.2

/-! ## Claim theorems -/

/-- C1 (counterexample): on the recognized markup file `index.html` with a
clean page, the dispatcher's returned list is empty while the Fast Pre-Pass
Evaluator's output over the raw text is non-empty (the page has no top-level
heading), so the dispatcher's output does not equal the pre-pass output
concatenated with the specialized evaluator's output — the dispatcher never
runs the pre-pass. -/
theorem C1_counterexample :
    analyzeFileHybrid parse1 cssNil jsNil engineNil c1Content "index.html" ≠
      (prePassModel c1Content).map transformViolation ++
        (analyzeHTML c1Content (parse1 c1Content)).map transformViolation ∧
    analyzeFileHybrid parse1 cssNil jsNil engineNil c1Content "index.html" = [] ∧
    (prePassModel c1Content).length = 1 := by
  refine ⟨?_, by decide, by decide⟩
  decide

/-- C1 (amended): for every recognized format the dispatcher returns exactly
the specialized evaluator's normalized output — the markup evaluator's for
markup extensions, the stylesheet evaluator's for stylesheet extensions, the
ESLint adapter's for marker-bearing scripts and for templating extensions,
and the script evaluator's otherwise.  No pre-pass output is concatenated. -/
theorem C1_amended :
    ∀ (parse : String → Except String (List DNode))
      (cssA jsA : String → String → List Violation) (engine : EslintEngine)
      (content filePath : String),
      ((lcString (jsExtname filePath) = ".html" ∨ lcString (jsExtname filePath) = ".htm") →
        analyzeFileHybrid parse cssA jsA engine content filePath =
          (analyzeHTML content (parse content)).map transformViolation) ∧
      ((lcString (jsExtname filePath) = ".css" ∨ lcString (jsExtname filePath) = ".scss") →
        analyzeFileHybrid parse cssA jsA engine content filePath =
          (cssA content filePath).map transformViolation) ∧
      ((lcString (jsExtname filePath) = ".js" ∨ lcString (jsExtname filePath) = ".ts") →
        (hasReactImport content || hasJSXElement content) = true →
        analyzeFileHybrid parse cssA jsA engine content filePath =
          analyzeFileWithESLint engine content filePath) ∧
      ((lcString (jsExtname filePath) = ".js" ∨ lcString (jsExtname filePath) = ".ts") →
        (hasReactImport content || hasJSXElement content) = false →
        analyzeFileHybrid parse cssA jsA engine content filePath =
          (jsA content filePath).map transformViolation) ∧
      ((lcString (jsExtname filePath) = ".jsx" ∨ lcString (jsExtname filePath) = ".tsx") →
        analyzeFileHybrid parse cssA jsA engine content filePath =
          analyzeFileWithESLint engine content filePath) := by
  intro parse cssA jsA engine content filePath
  refine ⟨?_, ?_, ?_, ?_, ?_⟩
  · intro h
    rcases h with h | h <;> simp [analyzeFileHybrid, route, h]
  · intro h
    rcases h with h | h <;> simp [analyzeFileHybrid, route, h]
  · intro h hm
    rcases h with h | h <;> simp [analyzeFileHybrid, route, h, hm]
  · intro h hm
    rcases h with h | h <;> simp [analyzeFileHybrid, route, h, hm]
  · intro h
    rcases h with h | h <;> simp [analyzeFileHybrid, route, h]

/-- C1 (witness): the markup branch of the amended statement at the concrete
clean page. -/
theorem C1_witness :
    (lcString (jsExtname "index.html") = ".html" ∨
      lcString (jsExtname "index.html") = ".htm") ∧
    analyzeFileHybrid parse1 cssNil jsNil engineNil c1Content "index.html" =
      (analyzeHTML c1Content (parse1 c1Content)).map transformViolation :=
  ⟨Or.inl (by decide),
    (C1_amended parse1 cssNil jsNil engineNil c1Content "index.html").1 (Or.inl (by decide))⟩

/-- C2 (counterexample): on `App.jsx` (routed to the ESLint adapter) with an
engine that throws, the public entry point returns the empty list even though
the pre-pass output over the same content is non-empty — the call does not
return "at least the pre-pass results". -/
theorem C2_counterexample :
    analyzeFileHybrid parseNil cssNil jsNil engineFail c2Content "App.jsx" = [] ∧
    (prePassModel c2Content).length = 1 := by
  constructor <;> decide

/-- C2 (amended): the public evaluation entry point is total (its embedding
is a function, never a thrown error); when the ESLint engine throws, the
error is caught and the call returns the empty list — not the pre-pass
results, which the dispatcher never computes; when the markup parse fails,
the markup branch still returns the raw-text checks (partial results). -/
theorem C2_amended :
    ∀ (parse : String → Except String (List DNode))
      (cssA jsA : String → String → List Violation) (engine : EslintEngine)
      (content filePath e : String),
      (engine content filePath = Except.error e →
        route filePath content = HybridRoute.eslintBranch →
        analyzeFileHybrid parse cssA jsA engine content filePath = []) ∧
      (parse content = Except.error e →
        route filePath content = HybridRoute.htmlBranch →
        analyzeFileHybrid parse cssA jsA engine content filePath =
          ((preParseChecks content.data (splitLines content.data) ++
            outlineViolations content.data (splitLines content.data)).map
              transformViolation)) := by
  intro parse cssA jsA engine content filePath e
  constructor
  · intro he hr
    simp [analyzeFileHybrid, hr, analyzeFileWithESLint, he]
  · intro hp hr
    simp [analyzeFileHybrid, hr, analyzeHTML, hp]

/-- C2 (witness): the ESLint-failure case of the amended statement at the
concrete input. -/
theorem C2_witness :
    engineFail c2Content "App.jsx" = Except.error "Parsing error" ∧
    route "App.jsx" c2Content = HybridRoute.eslintBranch ∧
    analyzeFileHybrid parseNil cssNil jsNil engineFail c2Content "App.jsx" = [] :=
  ⟨rfl, by decide,
    (C2_amended parseNil cssNil jsNil engineFail c2Content "App.jsx" "Parsing error").1
      rfl (by decide)⟩

/-- C3 (counterexample): a file with the unrecognized extension `.txt` is not
answered with an empty list: the catch-all branch hands it to the ESLint
adapter, and with the engine behaving as `lintText` does on JSX content (it
lints the supplied text regardless of the extension of the given path), the
dispatcher returns one violation. -/
theorem C3_counterexample :
    (analyzeFileHybrid parseNil cssNil jsNil engineOneFinding c3Content "notes.txt").length
      = 1 ∧
    lcString (jsExtname "notes.txt") ∉
      ([".html", ".htm", ".css", ".scss", ".js", ".ts"] : List String) := by
  constructor <;> decide

/-- C3 (amended): an unrecognized extension is not special-cased: it falls
into the dispatcher's catch-all branch and is analyzed by the ESLint
adapter, whose (jsx-a11y-filtered) output is returned; no error propagates
(the adapter catches engine failures and returns the empty list). -/
theorem C3_amended :
    ∀ (parse : String → Except String (List DNode))
      (cssA jsA : String → String → List Violation) (engine : EslintEngine)
      (content filePath : String),
      lcString (jsExtname filePath) ∉
        ([".html", ".htm", ".css", ".scss", ".js", ".ts"] : List String) →
      analyzeFileHybrid parse cssA jsA engine content filePath =
        analyzeFileWithESLint engine content filePath := by
  intro parse cssA jsA engine content filePath h
  simp only [List.mem_cons, List.not_mem_nil, or_false, not_or] at h
  obtain ⟨h1, h2, h3, h4, h5, h6⟩ := h
  simp [analyzeFileHybrid, route, h1, h2, h3, h4, h5, h6]

/-- C3 (witness): the amended statement at the concrete `.txt` input. -/
theorem C3_witness :
    lcString (jsExtname "notes.txt") ∉
      ([".html", ".htm", ".css", ".scss", ".js", ".ts"] : List String) ∧
    analyzeFileHybrid parseNil cssNil jsNil engineOneFinding c3Content "notes.txt" =
      analyzeFileWithESLint engineOneFinding c3Content "notes.txt" :=
  ⟨by decide,
    C3_amended parseNil cssNil jsNil engineOneFinding c3Content "notes.txt" (by decide)⟩

/-- C4 (code bug): a radio group that IS wrapped in a `fieldset`/`legend`
still receives a `radio-missing-fieldset` warning.  The source's fieldset
detection tests the content against a regex literal containing `${name}`,
which a regex literal does not interpolate: the `$` anchor followed by the
mandatory literal `{name}` makes the regex unsatisfiable, so the wrapped
group is flagged exactly like an unwrapped one. -/
theorem C4_evaluation :
    countRule "radio-missing-fieldset" (analyzeHTML c4Content (Except.ok dom4)) = 1 := by
  decide

/-- C5 (counterexample): an `input` carrying an `id` with no matching
`label[for]` anywhere, no `aria-label` and no `aria-labelledby` — unlabeled
per the claim's resolvability definition — receives no
`form-input-missing-label` violation: the source counts the mere presence of
an `id` as a label. -/
theorem C5_counterexample :
    countRule "form-input-missing-label" (analyzeHTML c5Content (Except.ok dom5)) = 0 ∧
    specResolvableLabel dom5 attrs5 = false ∧
    checkableInput "input" attrs5 = true := by
  refine ⟨by decide, by decide, by decide⟩

/-- C5 (amended): a `form-input-missing-label` violation is emitted exactly
once per non-hidden, non-submit, non-button input that lacks a truthy
`aria-label`, `aria-labelledby` AND `id`; the presence of an `id` alone
counts as labeled, with no `label[for]` resolution. -/
theorem C5_amended :
    ∀ (content : String) (dom : List DNode),
      countRule "form-input-missing-label" (analyzeHTML content (Except.ok dom)) =
        unlabeledCountL dom :=
  fun content dom => analyzeHTML_count_label content dom

/-- C6 (counterexample): two batches whose single findings differ only in
their WCAG reference lists produce identical aggregate summaries; the
aggregate summary therefore cannot contain the distinct set of
standard-criterion references triggered across the files. -/
theorem C6_counterexample :
    batchOverallSummary analyze6a files6 = batchOverallSummary analyze6b files6 ∧
    distinctWcagOfResults (batchResults analyze6a files6) ≠
      distinctWcagOfResults (batchResults analyze6b files6) := by
  constructor <;> decide

/-- C6 (amended): the batch contract returns per-file results plus an
aggregate summary with the total file count, the files-with-violations
count, and the total/error/warning violation counts; the distinct set of
WCAG references appears only in the single-file contract's summary, not in
the batch aggregate. -/
theorem C6_amended :
    ∀ (analyze : String → String → Except String (List HybridViolation))
      (files : List BatchFile),
      (batchOverallSummary analyze files).filesChecked = files.length ∧
      (batchOverallSummary analyze files).filesWithViolations =
        ((batchResults analyze files).filter (fun r => !r.violations.isEmpty)).length ∧
      (batchOverallSummary analyze files).totalViolations =
        ((batchResults analyze files).map (fun r => r.violations.length)).sum ∧
      (batchOverallSummary analyze files).totalErrors =
        ((batchResults analyze files).map
          (fun r => countSeverity "error" r.violations)).sum ∧
      (batchOverallSummary analyze files).totalWarnings =
        ((batchResults analyze files).map
          (fun r => countSeverity "warning" r.violations)).sum ∧
      ∀ (analyzeS : String → String → List HybridViolation) (filePath content : String),
        (checkAccessibilitySingle analyzeS filePath content).summary.wcagCriteria =
          jsSetDedup ((analyzeS content filePath).flatMap (fun v => v.wcag)) := by
  intro analyze files
  have h := batch_sums analyze files
  exact ⟨rfl, rfl, h.1, h.2.1, h.2.2, fun analyzeS filePath content => rfl⟩

/-- C7 (counterexample): for headings h1, h2, h4 in document order followed
by one more positioned element on line 5, exactly one heading-hierarchy
violation is reported, but its line is 4 — the traversal's final line
counter — while the h4 occurrence is on line 3. -/
theorem C7_counterexample :
    ((analyzeHTML c7Content (Except.ok dom7)).filter
      (fun v => v.ruleId = "heading-hierarchy")).map (fun v => v.line) = [4] ∧
    lineOfOccurrence c7Content.data "<h4".data 0 = some 3 := by
  constructor <;> decide

/-- C7 (amended): the markup evaluator reports one heading-hierarchy
violation per level jump greater than one between consecutive headings in
document order — exactly one for h1, h2, h4 and none for h1, h2, h3 — but
the violation carries the traversal's final approximate line value, not
necessarily the line of the later heading. -/
theorem C7_amended :
    (∀ (content : String) (dom : List DNode),
      countRule "heading-hierarchy" (analyzeHTML content (Except.ok dom)) =
        jumpCount (headingsOfList dom)) ∧
    jumpCount [1, 2, 4] = 1 ∧ jumpCount [1, 2, 3] = 0 :=
  ⟨fun content dom => analyzeHTML_count_hh content dom, by decide, by decide⟩

/-- C8 (counterexample): two elements sharing `id="x"` with one more
positioned element on line 3 produce exactly one duplicate-id violation, but
its line is 3 — the traversal's final line counter — while the second
occurrence is on line 2. -/
theorem C8_counterexample :
    ((analyzeHTML c8Content (Except.ok dom8)).filter
      (fun v => v.ruleId = "duplicate-id")).map (fun v => v.line) = [3] ∧
    lineOfOccurrence c8Content.data "id=\"x\"".data 1 = some 2 := by
  constructor <;> decide

/-- C8 (amended): duplicate identifiers are tracked by first-seen status —
the number of duplicate-id violations equals the number of id occurrences
beyond the first of each value (one for two sharers, two for three) — but
each violation carries the traversal's final approximate line value, not the
line of the offending occurrence. -/
theorem C8_amended :
    (∀ (content : String) (dom : List DNode),
      countRule "duplicate-id" (analyzeHTML content (Except.ok dom)) =
        (idsOfList dom).length - (jsSetDedup (idsOfList dom)).length) ∧
    (["x", "x"] : List String).length - (jsSetDedup ["x", "x"]).length = 1 ∧
    (["x", "x", "x"] : List String).length - (jsSetDedup ["x", "x", "x"]).length = 2 :=
  ⟨fun content dom => analyzeHTML_count_dup content dom, by decide, by decide⟩

/-- C9: a plain or typed script file (`.js`/`.ts`) is routed to the
ESLint-based templating delegate exactly when its content bears a templating
marker (a react import, or `return` optionally followed by `(` and then a
capitalized tag token, or an arrow body opening with one), and to the script
evaluator otherwise; `.jsx`/`.tsx` files are always routed to the
delegate. -/
theorem C9_routing :
    ∀ (content filePath : String),
      ((lcString (jsExtname filePath) = ".js" ∨ lcString (jsExtname filePath) = ".ts") →
        ((route filePath content = HybridRoute.eslintBranch ↔
          (hasReactImport content || hasJSXElement content) = true) ∧
         (route filePath content = HybridRoute.jsAstBranch ↔
          (hasReactImport content || hasJSXElement content) = false))) ∧
      ((lcString (jsExtname filePath) = ".jsx" ∨ lcString (jsExtname filePath) = ".tsx") →
        route filePath content = HybridRoute.eslintBranch) := by
  intro content filePath
  constructor
  · intro h
    rcases h with h | h <;>
      cases hm : hasReactImport content || hasJSXElement content <;>
        simp [route, h, hm]
  · intro h
    rcases h with h | h <;> simp [route, h]

/-- C9 (witness): the three routing outcomes at concrete inputs. -/
theorem C9_witness :
    route "App.js" "import React from \"react\"" = HybridRoute.eslintBranch ∧
    route "util.js" "const x = 1" = HybridRoute.jsAstBranch ∧
    route "App.tsx" "let z = 3" = HybridRoute.eslintBranch :=
  ⟨((C9_routing "import React from \"react\"" "App.js").1
      (Or.inl (by decide))).1.mpr (by decide),
   ((C9_routing "const x = 1" "util.js").1 (Or.inl (by decide))).2.mpr (by decide),
   (C9_routing "let z = 3" "App.tsx").2 (Or.inr (by decide))⟩

/-- C10: every violation emitted by the markup evaluator has severity
`error` or `warning`, and — provided the (absent from `src/`) stylesheet and
script evaluators do the same, as the repository documentation states —
every violation returned by the dispatcher does too; the `info` level is
never produced. -/
theorem C10_severity :
    (∀ (content : String) (parsed : Except String (List DNode)),
      ∀ v ∈ analyzeHTML content parsed,
        v.severity = "error" ∨ v.severity = "warning") ∧
    (∀ (parse : String → Except String (List DNode))
      (cssA jsA : String → String → List Violation) (engine : EslintEngine)
      (content filePath : String),
      (∀ c p, ∀ v ∈ cssA c p, v.severity = "error" ∨ v.severity = "warning") →
      (∀ c p, ∀ v ∈ jsA c p, v.severity = "error" ∨ v.severity = "warning") →
      ∀ v ∈ analyzeFileHybrid parse cssA jsA engine content filePath,
        v.severity = "error" ∨ v.severity = "warning") := by
  constructor
  · exact fun content parsed => analyzeHTML_sev content parsed
  · intro parse cssA jsA engine content filePath hcss hjs v hv
    unfold analyzeFileHybrid at hv
    split at hv
    · obtain ⟨w, hw, h⟩ := List.mem_map.mp hv
      subst h
      exact analyzeHTML_sev content (parse content) w hw
    · obtain ⟨w, hw, h⟩ := List.mem_map.mp hv
      subst h
      exact hcss content filePath w hw
    · obtain ⟨w, hw, h⟩ := List.mem_map.mp hv
      subst h
      exact hjs content filePath w hw
    · unfold analyzeFileWithESLint at hv
      split at hv
      · exact eslintTransform_sev _ v hv
      · simp at hv

/-- C10 (witness): the invariant evaluated on a non-empty concrete output
(the fieldset-wrapped radio page, which yields several violations). -/
theorem C10_witness :
    sevAllOKH (analyzeFileHybrid parse4 cssNil jsNil engineNil c4Content "form.html")
      = true := by
  rw [sevAllOKH, List.all_eq_true]
  intro v hv
  have h := C10_severity.2 parse4 cssNil jsNil engineNil c4Content "form.html"
    (by intro c p v hv; simp [cssNil] at hv)
    (by intro c p v hv; simp [jsNil] at hv) v hv
  rcases h with h | h <;> simp [h]
